import Mathlib

/-! Stackless "safe pickling" trampoline (`Stackless/pickling/safe_pickle.c`)


A shallow embedding of `slp_safe_pickling`, `pickle_callback`, `pickle_runmain`
and `pickle_M`.  The C code mutates the thread state `ts`, the current tasklet,
the continuation record `cf` and four file-level statics; here all of that is an
explicit `World` that every function takes and returns.  Every function also
returns the list of calls it made to functions outside the file and through the
`save` function pointer, in program order, so that "called exactly once" and
"called zero times" are statements about that list.

Pointers are natural numbers and `NULL` is `0`.  C `int` values are integers; the
file performs no arithmetic on them.
-/

namespace SafePickle

/-- A machine address; `0` is the null pointer. -/
abbrev Ptr := Nat

/-- The null pointer. -/
def NULL : Ptr := 0

/-- The two resume functions of this file that a record's `f_execute` can hold. -/
inductive ExecFunc where
  | pickle_callback
  | pickle_runmain
  deriving DecidableEq, Repr

/-- The fields of `PyCFrameObject` that the file reads or writes. -/
structure PyCFrameObject where
  f_back : Ptr
  f_execute : ExecFunc
  ob1 : Ptr
  ob2 : Ptr
  n : Int
  i : Int
  deriving DecidableEq, Repr

/-- One call that leaves the file: through a `save` function pointer, or to one
of the scheduler functions declared in `core/stackless_impl.h`. -/
inductive Event where
  | save (fn self args : Ptr) (pers_save : Int)
  | slp_cframe_new (exec : ExecFunc) (linked : Nat)
  | slp_transfer (slot cst prev : Ptr)
  | slp_transfer_return (cst : Ptr)
  | slp_eval_frame (f : Ptr)
  deriving DecidableEq, Repr

/-- Everything mutable the file touches: the thread state `ts` (`frame` and the
`st` members), the `cstate` slot of each tasklet, object reference counts, the
heap of continuation records, and the statics `cPickle_save`, `_self`, `_args`,
`_pers_save`. -/
structure World where
  frame : Ptr
  cstack_root : Ptr
  main : Ptr
  current : Ptr
  initial_stub : Ptr
  nesting_level : Int
  cstate : Ptr → Ptr
  ob_refcnt : Ptr → Int
  cframe : Ptr → PyCFrameObject
  cPickle_save : Ptr
  _self : Ptr
  _args : Ptr
  _pers_save : Int

/-- What a call yields: its return value, the world it leaves, and the calls it
made. -/
structure Res (α : Type) where
  val : α
  st : World
  tr : List Event

/-- The behaviour of a function of C type `int (*)(PyObject *, PyObject *, int)`.
It may change the world in any way and make calls of its own, among them
re-entrant calls of `slp_safe_pickling`. -/
abbrev SaveFn := Ptr → Ptr → Int → World → Res Int

/-- What one call of `slp_transfer` does. -/
inductive TransferOutcome where
  /-- no switch takes place and `status` is returned -/
  | fault (status : Int)
  /-- the running stack is captured as segment `seg`, the frame in `ts->frame`
  is resumed with `retval`, and control comes back with status `0` -/
  | switch (seg retval : Ptr)
  deriving DecidableEq, Repr

/-- What one call of `slp_eval_frame` does. -/
inductive EvalOutcome where
  /-- the frame is not run and `NULL` is returned -/
  | fault
  /-- the frame is run with `retval` and its result returned -/
  | run (retval : Ptr)
  deriving DecidableEq, Repr

/-- The surroundings of one activation of `slp_safe_pickling`: the constants and
functions that the file uses and does not define, and the stack addresses of the
locals whose address it takes.  Each is consulted at most once per activation. -/
structure Env where
  /-- the constant `STACK_REFPLUS` of `platf/slp_platformselect.h` -/
  STACK_REFPLUS : Nat
  /-- `sizeof(intptr_t)` -/
  sizeof_intptr_t : Nat
  /-- the function each function pointer designates -/
  code : Ptr → SaveFn
  /-- `&save` in `slp_safe_pickling` -/
  addr_save : Ptr
  /-- `&f` in `pickle_callback` -/
  addr_f : Ptr
  /-- `&self` in `pickle_M` -/
  addr_self : Ptr
  /-- the address `slp_cframe_new` returns, `NULL` when it fails -/
  cframe_addr : Ptr
  /-- the `f_back` that `slp_cframe_new` gives a record, from `linked` and the
  current `ts->frame` -/
  cframe_back : Nat → Ptr → Ptr
  /-- the outcome of `slp_transfer` -/
  transfer : TransferOutcome
  /-- the outcome of `slp_eval_frame` -/
  eval_frame : EvalOutcome
  /-- the object `PyInt_FromLong` returns for a value -/
  PyInt_FromLong : Int → Ptr
  /-- the value `slp_int_wrapper` returns for an object -/
  slp_int_wrapper : Ptr → Int

/-- Pointwise update of a heap map. -/
def upd {α : Type} (m : Ptr → α) (k : Ptr) (v : α) : Ptr → α :=
  fun x => if x = k then v else m x

/-- `Py_INCREF(op)`. -/
def Py_INCREF (op : Ptr) (w : World) : World :=
  { w with ob_refcnt := upd w.ob_refcnt op (w.ob_refcnt op + 1) }

/-- `Py_DECREF(op)`: the count goes down by one.  What the object's type does
when its count reaches zero is outside this file. -/
def Py_DECREF (op : Ptr) (w : World) : World :=
  { w with ob_refcnt := upd w.ob_refcnt op (w.ob_refcnt op - 1) }

/-- `Py_XDECREF(op)`: `Py_DECREF` unless `op` is `NULL`. -/
def Py_XDECREF (op : Ptr) (w : World) : World :=
  if op = NULL then w else Py_DECREF op w

/-- `Py_XINCREF(op)`: `Py_INCREF` unless `op` is `NULL`. -/
def Py_XINCREF (op : Ptr) (w : World) : World :=
  if op = NULL then w else Py_INCREF op w

/-- `STACK_REFPLUS + (intptr_t *) &x`, for a local at address `a`. -/
def stack_ref (E : Env) (a : Ptr) : Ptr :=
  a + E.STACK_REFPLUS * E.sizeof_intptr_t

/-- Store into `cur->cstate`. -/
def set_cstate (cur v : Ptr) (w : World) : World :=
  { w with cstate := upd w.cstate cur v }

/-- Store into `cf->i`. -/
def set_i (cf : Ptr) (v : Int) (w : World) : World :=
  { w with cframe := upd w.cframe cf { w.cframe cf with i := v } }

/-- Modelled from the spec: `slp_cframe_new` is declared in
`core/stackless_impl.h` and defined outside `src/`.  It creates a Continuation
Record, "a heap-allocated record describing a pending native call", holding "the
function to resume", its captured arguments and "a result slot"; creation can
fail by "resource exhaustion creating a Continuation Record".  The new record is
owned by the caller (one reference), resumes `exec`, and has empty argument and
result slots. -/
def slp_cframe_new (E : Env) (exec : ExecFunc) (linked : Nat) (w : World) : Res Ptr :=
  if E.cframe_addr = NULL then
    ⟨NULL, w, [Event.slp_cframe_new exec linked]⟩
  else
    ⟨E.cframe_addr,
     { w with
       cframe := upd w.cframe E.cframe_addr
         { f_back := E.cframe_back linked w.frame, f_execute := exec,
           ob1 := NULL, ob2 := NULL, n := 0, i := 0 },
       ob_refcnt := upd w.ob_refcnt E.cframe_addr 1 },
     [Event.slp_cframe_new exec linked]⟩

/-- The body of `pickle_callback(f, exc, retval)`.  It ends in
`slp_transfer_return(cst)`, which does not come back; the world returned is the
one at that call, and the value is the `NULL` of the unreachable `return`. -/
def pickle_callback (E : Env) (f : Ptr) (_exc : Int) (retval : Ptr) (w : World) : Res Ptr :=
  let cur := w.current
  let cf := f
  -- ts->st.nesting_level = 1;
  let w1 : World := { w with nesting_level := 1 }
  -- cst = cur->cstate; cur->cstate = ts->st.initial_stub; Py_INCREF(cur->cstate);
  let cst := w1.cstate cur
  let w2 := set_cstate cur w1.initial_stub w1
  let w3 := Py_INCREF (w2.cstate cur) w2
  -- saved_base = ts->st.cstack_root; ts->st.cstack_root = STACK_REFPLUS + (intptr_t *) &f;
  let saved_base := w3.cstack_root
  let w4 : World := { w3 with cstack_root := stack_ref E E.addr_f }
  let r : Res Unit :=
    if retval ≠ NULL then
      -- Py_DECREF(retval); cf->i = cPickle_save(cf->ob1, cf->ob2, cf->n);
      let w5 := Py_DECREF retval w4
      let c := E.code w5.cPickle_save (w5.cframe cf).ob1 (w5.cframe cf).ob2 (w5.cframe cf).n w5
      ⟨(), set_i cf c.val c.st,
       Event.save w5.cPickle_save (w5.cframe cf).ob1 (w5.cframe cf).ob2 (w5.cframe cf).n :: c.tr⟩
    else
      -- cf->i = -1;
      ⟨(), set_i cf (-1) w4, []⟩
  -- ts->st.cstack_root = saved_base;
  let w6 : World := { r.st with cstack_root := saved_base }
  -- Py_DECREF(cur->cstate); cur->cstate = cst; ts->frame = cf->f_back;
  let w7 := Py_DECREF (w6.cstate cur) w6
  let w8 := set_cstate cur cst w7
  let w9 : World := { w8 with frame := (w8.cframe cf).f_back }
  -- slp_transfer_return(cst);
  ⟨NULL, w9, r.tr ++ [Event.slp_transfer_return cst]⟩

/-- The body of `pickle_runmain(f, exc, retval)`. -/
def pickle_runmain (E : Env) (f : Ptr) (_exc : Int) (retval : Ptr) (w : World) : Res Ptr :=
  -- Py_XDECREF(retval); ts->frame = f->f_back; Py_DECREF(f);
  let w1 := Py_XDECREF retval w
  let w2 : World := { w1 with frame := (w1.cframe f).f_back }
  let w3 := Py_DECREF f w2
  -- return PyInt_FromLong(cPickle_save(_self, _args, _pers_save));
  let c := E.code w3.cPickle_save w3._self w3._args w3._pers_save w3
  ⟨E.PyInt_FromLong c.val, c.st,
   Event.save w3.cPickle_save w3._self w3._args w3._pers_save :: c.tr⟩

/-- Resuming a frame: `f->f_execute(f, exc, retval)`. -/
def run_frame (E : Env) (f : Ptr) (exc : Int) (retval : Ptr) (w : World) : Res Ptr :=
  match (w.cframe f).f_execute with
  | ExecFunc.pickle_callback => pickle_callback E f exc retval w
  | ExecFunc.pickle_runmain => pickle_runmain E f exc retval w

/-- Modelled from the spec: `slp_transfer` is the Transfer Primitive,
`Transfer(fromSegmentSlot, toSegment, carrier) -> status`, defined outside
`src/`.  A failing transfer "cannot switch native execution contexts": nothing
happens and a status is returned.  A successful one captures the running stack as
a segment owned by the slot `slot->cstate`, hands control "to the scheduler's
resumption point, which runs the callback and stores its outcome into the
Continuation Record's result slot", and returns `0` once control has been
transferred back.  The nesting counter is among the state mutated "for the
duration of the call only; all mutations are fully reverted before returning":
the file itself only assigns it, so the transfer back into the captured segment
is what puts it back to the value it had when the segment was captured. -/
def slp_transfer (E : Env) (slot cst prev : Ptr) (w : World) : Res Int :=
  match E.transfer with
  | TransferOutcome.fault status => ⟨status, w, [Event.slp_transfer slot cst prev]⟩
  | TransferOutcome.switch seg retval =>
    let w1 := Py_XINCREF seg (set_cstate slot seg w)
    let r := run_frame E w1.frame 0 retval w1
    ⟨0, { r.st with nesting_level := w.nesting_level },
     Event.slp_transfer slot cst prev :: r.tr⟩

/-- Modelled from the spec: `slp_eval_frame` is the "dedicated bootstrap entry
point" defined outside `src/`; it "executes the callback once the stack/context
machinery is ready, tears the bootstrap context down, and returns the result
synchronously".  It runs the frame it is given and returns the frame's result, or
returns `NULL` without running it. -/
def slp_eval_frame (E : Env) (f : Ptr) (w : World) : Res Ptr :=
  match E.eval_frame with
  | EvalOutcome.fault => ⟨NULL, w, [Event.slp_eval_frame f]⟩
  | EvalOutcome.run retval =>
    let r := run_frame E f 0 retval w
    ⟨r.val, r.st, Event.slp_eval_frame f :: r.tr⟩

/-- The body of `pickle_M(self, args, pers_save)`. -/
def pickle_M (E : Env) (self args : Ptr) (pers_save : Int) (w : World) : Res Int :=
  -- PyCFrameObject *cf = slp_cframe_new(pickle_runmain, 0);
  let a := slp_cframe_new E ExecFunc.pickle_runmain 0 w
  let cf := a.val
  -- if (cf == NULL) return -1;
  if cf = NULL then ⟨-1, a.st, a.tr⟩
  else
    -- _self = self; _args = args; _pers_save = pers_save;
    let w1 : World := { a.st with _self := self, _args := args, _pers_save := pers_save }
    -- old_root = ts->st.cstack_root; ts->st.cstack_root = STACK_REFPLUS + (intptr_t *) &self;
    let old_root := w1.cstack_root
    let w2 : World := { w1 with cstack_root := stack_ref E E.addr_self }
    -- ret = slp_int_wrapper(slp_eval_frame((PyFrameObject *)cf));
    let e := slp_eval_frame E cf w2
    let ret := E.slp_int_wrapper e.val
    -- ts->st.cstack_root = old_root; return ret;
    ⟨ret, { e.st with cstack_root := old_root }, a.tr ++ e.tr⟩

/-- The body of `slp_safe_pickling(save, self, args, pers_save)`. -/
def slp_safe_pickling (E : Env) (save self args : Ptr) (pers_save : Int) (w : World) :
    Res Int :=
  let cur := w.current
  if w.cstack_root = NULL then
    -- ts->st.cstack_root = STACK_REFPLUS + (intptr_t *) &save;
    let w1 : World := { w with cstack_root := stack_ref E E.addr_save }
    -- ret = (*save)(self, args, pers_save);
    let c := E.code save self args pers_save w1
    -- ts->st.cstack_root = NULL; return ret;
    ⟨c.val, { c.st with cstack_root := NULL }, Event.save save self args pers_save :: c.tr⟩
  else
    -- cPickle_save = save;
    let w1 : World := { w with cPickle_save := save }
    -- if (ts->st.main == NULL) return pickle_M(self, args, pers_save);
    if w1.main = NULL then pickle_M E self args pers_save w1
    else
      -- cf = slp_cframe_new(pickle_callback, 1); if (cf == NULL) goto finally;
      let a := slp_cframe_new E ExecFunc.pickle_callback 1 w1
      let cf := a.val
      if cf = NULL then
        -- finally: Py_XDECREF(cf); return ret;
        ⟨-1, Py_XDECREF cf a.st, a.tr⟩
      else
        -- Py_INCREF(self); cf->ob1 = self; Py_INCREF(args); cf->ob2 = args; cf->n = pers_save;
        let w2 := Py_INCREF self a.st
        let w3 : World := { w2 with cframe := upd w2.cframe cf { w2.cframe cf with ob1 := self } }
        let w4 := Py_INCREF args w3
        let w5 : World := { w4 with cframe := upd w4.cframe cf { w4.cframe cf with ob2 := args } }
        let w6 : World := { w5 with cframe := upd w5.cframe cf { w5.cframe cf with n := pers_save } }
        -- ts->frame = (PyFrameObject *) cf; cst = cur->cstate; cur->cstate = NULL;
        let w7 : World := { w6 with frame := cf }
        let cst := w7.cstate cur
        let w8 := set_cstate cur NULL w7
        -- if (slp_transfer(&cur->cstate, NULL, cur) < 0) return -1;
        let t := slp_transfer E cur NULL cur w8
        if t.val < 0 then ⟨-1, t.st, a.tr ++ t.tr⟩
        else
          -- Py_XDECREF(cur->cstate); cur->cstate = cst; ret = cf->i;
          let w9 := Py_XDECREF (t.st.cstate cur) t.st
          let w10 := set_cstate cur cst w9
          let ret := (w10.cframe cf).i
          -- finally: Py_XDECREF(cf); return ret;
          ⟨ret, Py_XDECREF cf w10, a.tr ++ t.tr⟩

/-! ## The world in which each path calls the callback -/

/-- Direct path: the world at `ret = (*save)(self, args, pers_save)`. -/
def direct_call_world (E : Env) (w : World) : World :=
  { w with cstack_root := stack_ref E E.addr_save }

/-- Record-and-transfer path: the world in which `slp_transfer` is called, when
the record was created. -/
def transfer_world (E : Env) (save self args : Ptr) (pers_save : Int) (w : World) : World :=
  let cur := w.current
  let cf := E.cframe_addr
  -- cPickle_save = save; cf = slp_cframe_new(pickle_callback, 1);
  let a := (slp_cframe_new E ExecFunc.pickle_callback 1 { w with cPickle_save := save }).st
  let w2 := Py_INCREF self a
  let w3 : World := { w2 with cframe := upd w2.cframe cf { w2.cframe cf with ob1 := self } }
  let w4 := Py_INCREF args w3
  let w5 : World := { w4 with cframe := upd w4.cframe cf { w4.cframe cf with ob2 := args } }
  let w6 : World := { w5 with cframe := upd w5.cframe cf { w5.cframe cf with n := pers_save } }
  set_cstate cur NULL { w6 with frame := cf }

/-- Record-and-transfer path: the world at
`cf->i = cPickle_save(cf->ob1, cf->ob2, cf->n)` in `pickle_callback`, when the
record was created, the transfer captured segment `seg` and resumed the record
with a non-null `retval`. -/
def nested_call_world (E : Env) (save self args : Ptr) (pers_save : Int) (seg retval : Ptr)
    (w : World) : World :=
  let cur := w.current
  -- slp_safe_pickling up to the transfer
  let w8 := transfer_world E save self args pers_save w
  -- slp_transfer
  let t := Py_XINCREF seg (set_cstate cur seg w8)
  -- pickle_callback up to the call
  let p1 : World := { t with nesting_level := 1 }
  let p2 := set_cstate cur p1.initial_stub p1
  let p3 := Py_INCREF (p2.cstate cur) p2
  let p4 : World := { p3 with cstack_root := stack_ref E E.addr_f }
  Py_DECREF retval p4

/-- Record-and-transfer path: the world `slp_safe_pickling` returns, from the
result `c` of the callback. -/
def nested_return_world (E : Env) (seg : Ptr) (w : World) (c : Res Int) : World :=
  let cur := w.current
  let cf := E.cframe_addr
  -- pickle_callback after the call
  let q1 := set_i cf c.val c.st
  let q2 : World := { q1 with cstack_root := w.cstack_root }
  let q3 := Py_DECREF (q2.cstate cur) q2
  let q4 := set_cstate cur seg q3
  let q5 : World := { q4 with frame := (q4.cframe cf).f_back }
  -- the transfer back into the captured segment (see slp_transfer)
  let t5 : World := { q5 with nesting_level := w.nesting_level }
  -- slp_safe_pickling after the transfer
  let q6 := Py_XDECREF (t5.cstate cur) t5
  let q7 := set_cstate cur (w.cstate cur) q6
  Py_XDECREF cf q7

/-- Bootstrap path: the world at `cPickle_save(_self, _args, _pers_save)` in
`pickle_runmain`, when the record was created and `slp_eval_frame` ran it with
`retval`. -/
def bootstrap_call_world (E : Env) (save self args : Ptr) (pers_save : Int) (retval : Ptr)
    (w : World) : World :=
  let cf := E.cframe_addr
  -- pickle_M up to slp_eval_frame
  let a := (slp_cframe_new E ExecFunc.pickle_runmain 0 { w with cPickle_save := save }).st
  let m1 : World := { a with _self := self, _args := args, _pers_save := pers_save }
  let m2 : World := { m1 with cstack_root := stack_ref E E.addr_self }
  -- pickle_runmain up to the call
  let r1 := Py_XDECREF retval m2
  let r2 : World := { r1 with frame := (r1.cframe cf).f_back }
  Py_DECREF cf r2

/-- Whether the call gets as far as calling the callback: always on the direct
path; on the other two, when the record is created and the frame evaluation runs
it, or the transfer resumes it with a non-null `retval`. -/
def reaches_callback (E : Env) (w : World) : Bool :=
  if w.cstack_root = NULL then true
  else if E.cframe_addr = NULL then false
  else if w.main = NULL then
    match E.eval_frame with
    | EvalOutcome.run _ => true
    | EvalOutcome.fault => false
  else
    match E.transfer with
    | TransferOutcome.switch _ retval => decide (retval ≠ NULL)
    | TransferOutcome.fault _ => false

/-- The world in which the call calls the callback, on whichever path it takes
(the entry world where it does not get that far). -/
def call_world (E : Env) (save self args : Ptr) (pers_save : Int) (w : World) : World :=
  if w.cstack_root = NULL then direct_call_world E w
  else if w.main = NULL then
    match E.eval_frame with
    | EvalOutcome.run retval => bootstrap_call_world E save self args pers_save retval w
    | EvalOutcome.fault => w
  else
    match E.transfer with
    | TransferOutcome.switch seg retval =>
      nested_call_world E save self args pers_save seg retval w
    | TransferOutcome.fault _ => w

/-- Record-and-transfer path: the world in which `pickle_callback` is entered,
when the record was created and the transfer captured segment `seg`. -/
def resume_world (E : Env) (save self args : Ptr) (pers_save : Int) (seg : Ptr)
    (w : World) : World :=
  Py_XINCREF seg (set_cstate w.current seg (transfer_world E save self args pers_save w))

/-- The world at `cf->i = cPickle_save(cf->ob1, cf->ob2, cf->n)` when
`pickle_callback` is entered in world `w` with a non-null `retval`. -/
def callback_call_world (E : Env) (retval : Ptr) (w : World) : World :=
  let cur := w.current
  let p1 : World := { w with nesting_level := 1 }
  let p2 := set_cstate cur p1.initial_stub p1
  let p3 := Py_INCREF (p2.cstate cur) p2
  let p4 : World := { p3 with cstack_root := stack_ref E E.addr_f }
  Py_DECREF retval p4

/-- Record-and-transfer path, `pickle_callback` resumed with a null `retval`: the
world `slp_safe_pickling` returns. -/
def nested_null_return_world (E : Env) (save self args : Ptr) (pers_save : Int) (seg : Ptr)
    (w : World) : World :=
  let cur := w.current
  let cf := E.cframe_addr
  let t := resume_world E save self args pers_save seg w
  -- pickle_callback
  let p1 : World := { t with nesting_level := 1 }
  let p2 := set_cstate cur p1.initial_stub p1
  let p3 := Py_INCREF (p2.cstate cur) p2
  let q1 := set_i cf (-1) p3
  let q3 := Py_DECREF (q1.cstate cur) q1
  let q4 := set_cstate cur seg q3
  let q5 : World := { q4 with frame := (q4.cframe cf).f_back }
  -- the transfer back into the captured segment (see slp_transfer)
  let t5 : World := { q5 with nesting_level := w.nesting_level }
  -- slp_safe_pickling after the transfer
  let q6 := Py_XDECREF (t5.cstate cur) t5
  let q7 := set_cstate cur (w.cstate cur) q6
  Py_XDECREF cf q7

/-- The thread-local state the trampoline works on: boundary marker, the current
tasklet's segment, nesting counter, current frame, stored callback. -/
def thread_local (w : World) : Ptr × Ptr × Int × Ptr × Ptr :=
  (w.cstack_root, w.cstate w.current, w.nesting_level, w.frame, w.cPickle_save)

/-- A pure callback: it leaves the world as it found it and its result does not
depend on the world. -/
def is_pure (cb : SaveFn) : Prop :=
  ∀ (self args : Ptr) (pers_save : Int) (w w2 : World),
    (cb self args pers_save w).st = w ∧
    (cb self args pers_save w).val = (cb self args pers_save w2).val

/-- The call takes the direct path, or takes the record-and-transfer path with the
record created, linked to the current frame, and resumed by the transfer with a
non-null `retval`. -/
def direct_or_nested (E : Env) (w : World) : Prop :=
  w.cstack_root = NULL ∨
  (w.cstack_root ≠ NULL ∧ w.main ≠ NULL ∧ E.cframe_addr ≠ NULL ∧
    E.cframe_back 1 w.frame = w.frame ∧
    ∃ seg retval, retval ≠ NULL ∧ E.transfer = TransferOutcome.switch seg retval)

/-! ## Observing a call -/

/-- The three paths of `slp_safe_pickling`. -/
inductive Path where
  | direct
  | bootstrap
  | transfer
  deriving DecidableEq, Repr

/-- The path a call took, read off the first call it made: the direct path
calls `save` first, `pickle_M` creates a record resumed by `pickle_runmain`, and
the record-and-transfer path creates one resumed by `pickle_callback`. -/
def path_taken (tr : List Event) : Option Path :=
  match tr.head? with
  | some (Event.save _ _ _ _) => some Path.direct
  | some (Event.slp_cframe_new ExecFunc.pickle_runmain _) => some Path.bootstrap
  | some (Event.slp_cframe_new ExecFunc.pickle_callback _) => some Path.transfer
  | _ => none

/-- The case the specification selects, following its words: case 1 "No boundary
is currently active", case 2 "A boundary is already active, and the scheduler's
main loop has been established", case 3 "A boundary is already active, but the
scheduler's main loop has never been established"; "evaluated in order". -/
def spec_case (w : World) : Path :=
  if w.cstack_root = NULL then Path.direct
  else if w.cstack_root ≠ NULL ∧ w.main ≠ NULL then Path.transfer
  else Path.bootstrap

/-- Calls to `slp_cframe_new`. -/
def is_cframe_new : Event → Bool
  | Event.slp_cframe_new _ _ => true
  | _ => false

/-- Calls to `slp_transfer`. -/
def is_transfer : Event → Bool
  | Event.slp_transfer _ _ _ => true
  | _ => false

/-- Calls to `slp_eval_frame`. -/
def is_eval_frame : Event → Bool
  | Event.slp_eval_frame _ => true
  | _ => false

/-- Calls through a `save` function pointer. -/
def is_save : Event → Bool
  | Event.save _ _ _ _ => true
  | _ => false

/-- A callback that only calls `slp_safe_pickling` again, `depth` levels deep,
with `leaf` innermost; level `d` runs in surroundings `envs d`. -/
def nested_save (envs : Nat → Env) (leaf : SaveFn) (fn : Ptr) : Nat → SaveFn
  | 0 => leaf
  | d + 1 => fun self args pers_save w =>
    slp_safe_pickling { envs d with code := fun _ => nested_save envs leaf fn d }
      fn self args pers_save w

/-! ## Concrete data -/

/-- A callback that returns 42 and changes nothing. -/
def ex_save_42 : SaveFn := fun _ _ _ w => ⟨42, w, []⟩

/-- A callback that reports failure and changes nothing. -/
def ex_save_fail : SaveFn := fun _ _ _ w => ⟨-1, w, []⟩

/-- An integer object per value: even addresses for non-negative values. -/
def ex_box (v : Int) : Ptr :=
  if 0 ≤ v then 2 * v.toNat + 2 else 2 * (-v).toNat + 1

/-- The value of the integer object at an address. -/
def ex_unbox (p : Ptr) : Int :=
  if p % 2 = 0 then ((p / 2 : Nat) : Int) - 1 else -(((p / 2 : Nat)) : Int)

/-- Surroundings with `STACK_REFPLUS` 1, 8-byte words, every function pointer
designating `cb`, a record at 500 linked to the current frame, and the given
transfer and frame-evaluation outcomes. -/
def ex_env (cb : SaveFn) (t : TransferOutcome) (e : EvalOutcome) : Env :=
  { STACK_REFPLUS := 1, sizeof_intptr_t := 8, code := fun _ => cb,
    addr_save := 4096, addr_f := 8192, addr_self := 12288,
    cframe_addr := 500, cframe_back := fun linked fr => if linked = 0 then NULL else fr,
    transfer := t, eval_frame := e,
    PyInt_FromLong := ex_box, slp_int_wrapper := ex_unbox }

/-- A thread state with the given boundary marker and main tasklet: current
tasklet 20 on segment 40, baseline segment 30, frame 10, every count 1. -/
def ex_world (root main : Ptr) : World :=
  { frame := 10, cstack_root := root, main := main, current := 20, initial_stub := 30,
    nesting_level := 0, cstate := fun t => if t = 20 then 40 else NULL,
    ob_refcnt := fun _ => 1,
    cframe := fun _ => { f_back := NULL, f_execute := ExecFunc.pickle_runmain,
                         ob1 := NULL, ob2 := NULL, n := 0, i := 0 },
    cPickle_save := NULL, _self := NULL, _args := NULL, _pers_save := 0 }

/-- The thread state `ex_world root main` with the nesting counter at `n`. -/
def ex_world_level (root main : Ptr) (n : Int) : World :=
  { ex_world root main with nesting_level := n }

/-- Calls to `slp_transfer_return`. -/
def is_transfer_return : Event → Bool
  | Event.slp_transfer_return _ => true
  | _ => false

/-- A callback that calls `slp_safe_pickling` again with function pointer 8, in
surroundings where the record is at 501 and every pointer designates
`ex_save_fail`. -/
def ex_save_reenter : SaveFn := fun self args pers_save w =>
  slp_safe_pickling
    { ex_env ex_save_fail (TransferOutcome.switch 51 60) EvalOutcome.fault with
      cframe_addr := 501 }
    8 self args pers_save w

end SafePickle

/-! ## The known-folder manager bindings (`shell/src/PyIKnownFolderManager.cpp`)

Each method of the binding fetches the COM interface from `self`, parses `args`,
calls the COM method, and turns the outcome into a Python object.  The functions
and macros the file uses and does not define (`GetI`, the argument parsers, the
converters, `FAILED`, `PyCom_BuildPyException`, the COM object itself) are the
fields of `Com`.  A method returns its `PyObject *` and the list of calls it made
to the exception builder, the converters and the memory functions. -/

namespace PyIKnownFolderManager

/-- A machine address; `0` is the null pointer. -/
abbrev Ptr := Nat

/-- The null pointer. -/
def NULL : Ptr := 0

/-- A COM status code. -/
abbrev HRESULT := Int

/-- A GUID value. -/
abbrev IID := Nat

/-- The struct `KNOWNFOLDER_DEFINITION`. -/
structure KNOWNFOLDER_DEFINITION where
  category : Int
  pszName : Ptr
  pszDescription : Ptr
  fidParent : IID
  pszRelativePath : Ptr
  pszParsingName : Ptr
  pszTooltip : Ptr
  pszLocalizedName : Ptr
  pszIcon : Ptr
  pszSecurity : Ptr
  dwAttributes : Int
  kfdFlags : Int
  ftidType : IID
  deriving DecidableEq, Repr

/-- What `PyArg_ParseTupleAndKeywords` leaves behind in
`PyWinObject_AsKNOWNFOLDER_DEFINITION`: its verdict, the five scalar fields it
writes into `def`, and the eight objects it stores in the locals. -/
structure ParsedKeywords where
  ok : Bool
  category : Int
  obName : Ptr
  obDescription : Ptr
  fidParent : IID
  obRelativePath : Ptr
  obParsingName : Ptr
  obTooltip : Ptr
  obLocalizedName : Ptr
  obIcon : Ptr
  obSecurity : Ptr
  dwAttributes : Int
  kfdFlags : Int
  ftidType : IID

/-- The arguments `Redirect` parses out of `args`. -/
structure RedirectArgs where
  kfid : IID
  hwnd : Ptr
  flags : Int
  obTargetPath : Ptr
  obExcludes : Ptr

/-- A call the bindings make that the claims observe. -/
inductive Call where
  | PyCom_BuildPyException (hr : HRESULT)
  | PyWinObject_FromIID (iid : IID)
  | PyInt_FromLong (v : Int)
  | PyCom_PyObjectFromIUnknown (punk : Ptr)
  | PyTuple_New (n : Nat)
  | PyTuple_SET_ITEM (t : Ptr) (i : Nat) (o : Ptr)
  | Py_INCREF (o : Ptr)
  | Py_DECREF (o : Ptr)
  | CoTaskMemFree (p : Ptr)
  | PyObject_FreePIDL (p : Ptr)
  | FreeKnownFolderDefinitionFields
  | PyErr_SetString_TypeError
  deriving DecidableEq, Repr

/-- What a method yields: the `PyObject *` it returns and the calls it made. -/
structure Ret where
  ret : Ptr
  calls : List Call
  deriving DecidableEq, Repr

/-- Everything the file uses and does not define. -/
structure Com where
  /-- the macro `FAILED` -/
  FAILED : HRESULT → Bool
  /-- `GetI(self)`: the interface pointer, `NULL` when `self` is not one -/
  GetI : Ptr → Ptr
  /-- the value `PyCom_BuildPyException(hr, pIKFM, IID_IKnownFolderManager)` returns -/
  PyCom_BuildPyException : HRESULT → Ptr
  PyWinObject_FromIID : IID → Ptr
  PyInt_FromLong : Int → Ptr
  /-- `PyCom_PyObjectFromIUnknown(punk, IID_IKnownFolder, FALSE)` -/
  PyCom_PyObjectFromIUnknown : Ptr → Ptr
  PyTuple_New : Nat → Ptr
  Py_None : Ptr
  PyDict_Check : Ptr → Bool
  /-- `PyArg_ParseTuple(args, "i:FolderIdFromCsidl", &csidl)` -/
  parse_csidl : Ptr → Option Int
  /-- `PyArg_ParseTuple(args, "O&:...", PyWinObject_AsIID, &kfid)` -/
  parse_kfid : Ptr → Option IID
  /-- `PyArg_ParseTuple(args, ":GetFolderIds")` -/
  parse_nothing : Ptr → Bool
  /-- `PyArg_ParseTuple(args, "O:...", &ob)` -/
  parse_object : Ptr → Option Ptr
  /-- `PyArg_ParseTuple(args, "Oi:FindFolderFromPath", &obpath, &mode)` -/
  parse_path_mode : Ptr → Option (Ptr × Int)
  /-- `PyArg_ParseTuple(args, "O&O:RegisterFolder", PyWinObject_AsIID, &kfid, &obdef)` -/
  parse_kfid_object : Ptr → Option (IID × Ptr)
  /-- `PyArg_ParseTuple(args, "O&O&iOO:Redirect", ...)` -/
  parse_redirect : Ptr → Option RedirectArgs
  /-- `PyArg_ParseTupleAndKeywords(obdummy, obdef, "iOOO&OOOOOOkiO&", keywords, ...)` -/
  parse_keywords : Ptr → ParsedKeywords
  /-- `PyWinObject_AsWCHAR(ob, &dest, FALSE)`: the string, or failure -/
  PyWinObject_AsWCHAR : Ptr → Option Ptr
  /-- `PyWinObject_AsTaskAllocatedWCHAR(ob, &dest, bNoneOK)`: the string stored
  in `dest`, or failure -/
  PyWinObject_AsTaskAllocatedWCHAR : Ptr → Bool → Option Ptr
  /-- `PyObject_AsPIDL(ob, &pidl, FALSE)` -/
  PyObject_AsPIDL : Ptr → Option Ptr
  /-- `SeqToVector(ob, &Excludes, &cExcludes, PyWinObject_AsIID)`: array and length -/
  SeqToVector : Ptr → Option (Ptr × Nat)
  /-- the fields of `def` after `FreeKnownFolderDefinitionFields(&def)` -/
  FreeKnownFolderDefinitionFields : KNOWNFOLDER_DEFINITION → KNOWNFOLDER_DEFINITION
  /-- `pIKFM->FolderIdFromCsidl(csidl, &kfid)`: status and `kfid` afterwards -/
  com_FolderIdFromCsidl : Int → HRESULT × IID
  /-- `pIKFM->FolderIdToCsidl(kfid, &csidl)`: status and `csidl` afterwards -/
  com_FolderIdToCsidl : IID → HRESULT × Int
  /-- `pIKFM->GetFolderIds(&kfids, &count)`: status, `kfids` and `count` afterwards -/
  com_GetFolderIds : HRESULT × Ptr × Nat
  /-- the element `kfids[i]` of an id array -/
  kfids_at : Ptr → Nat → IID
  /-- `pIKFM->GetFolder(kfid, &ret)`: status and `ret` afterwards -/
  com_GetFolder : IID → HRESULT × Ptr
  /-- `pIKFM->GetFolderByName(name, &ret)`: status and `ret` afterwards -/
  com_GetFolderByName : Ptr → HRESULT × Ptr
  /-- `pIKFM->RegisterFolder(kfid, &def)` -/
  com_RegisterFolder : IID → KNOWNFOLDER_DEFINITION → HRESULT
  /-- `pIKFM->UnregisterFolder(kfid)` -/
  com_UnregisterFolder : IID → HRESULT
  /-- `pIKFM->FindFolderFromPath(path, mode, &ret)`: status and `ret` afterwards -/
  com_FindFolderFromPath : Ptr → Int → HRESULT × Ptr
  /-- `pIKFM->FindFolderFromIDList(pidl, &ret)`: status and `ret` afterwards -/
  com_FindFolderFromIDList : Ptr → HRESULT × Ptr
  /-- `pIKFM->Redirect(kfid, hwnd, flags, TargetPath, cExcludes, Excludes, &Error)`:
  status and `Error` afterwards -/
  com_Redirect : IID → Ptr → Int → Ptr → Nat → Ptr → HRESULT × Ptr

/-- `ZeroMemory(&def, sizeof(def))`. -/
def zero_definition : KNOWNFOLDER_DEFINITION :=
  { category := 0, pszName := NULL, pszDescription := NULL, fidParent := 0,
    pszRelativePath := NULL, pszParsingName := NULL, pszTooltip := NULL,
    pszLocalizedName := NULL, pszIcon := NULL, pszSecurity := NULL,
    dwAttributes := 0, kfdFlags := 0, ftidType := 0 }

/-- The body of `PyIKnownFolderManager::FolderIdFromCsidl`. -/
def FolderIdFromCsidl (E : Com) (self args : Ptr) : Ret :=
  let pIKFM := E.GetI self
  if pIKFM = NULL then ⟨NULL, []⟩
  else
    match E.parse_csidl args with
    | none => ⟨NULL, []⟩
    | some csidl =>
      let hr := (E.com_FolderIdFromCsidl csidl).1
      let kfid := (E.com_FolderIdFromCsidl csidl).2
      if E.FAILED hr then
        ⟨E.PyCom_BuildPyException hr, [Call.PyCom_BuildPyException hr]⟩
      else ⟨E.PyWinObject_FromIID kfid, [Call.PyWinObject_FromIID kfid]⟩

/-- The body of `PyIKnownFolderManager::FolderIdToCsidl`. -/
def FolderIdToCsidl (E : Com) (self args : Ptr) : Ret :=
  let pIKFM := E.GetI self
  if pIKFM = NULL then ⟨NULL, []⟩
  else
    match E.parse_kfid args with
    | none => ⟨NULL, []⟩
    | some kfid =>
      let hr := (E.com_FolderIdToCsidl kfid).1
      let csidl := (E.com_FolderIdToCsidl kfid).2
      if E.FAILED hr then
        ⟨E.PyCom_BuildPyException hr, [Call.PyCom_BuildPyException hr]⟩
      else ⟨E.PyInt_FromLong csidl, [Call.PyInt_FromLong csidl]⟩

/-- The loop of `GetFolderIds`, `for (UINT i=0; i<count; i++)`, with `n`
iterations left from index `i`: the value of `ret` afterwards and the calls
made. -/
def GetFolderIds_loop (E : Com) (kfids ret : Ptr) : Nat → Nat → Ptr × List Call
  | 0, _ => (ret, [])
  | n + 1, i =>
    -- PyObject *pyiid = PyWinObject_FromIID(kfids[i]);
    let pyiid := E.PyWinObject_FromIID (E.kfids_at kfids i)
    if pyiid = NULL then
      -- Py_DECREF(ret); ret = NULL; break;
      (NULL, [Call.PyWinObject_FromIID (E.kfids_at kfids i), Call.Py_DECREF ret])
    else
      -- PyTuple_SET_ITEM(ret, i, pyiid);
      ((GetFolderIds_loop E kfids ret n (i + 1)).1,
       Call.PyWinObject_FromIID (E.kfids_at kfids i) :: Call.PyTuple_SET_ITEM ret i pyiid ::
         (GetFolderIds_loop E kfids ret n (i + 1)).2)

/-- The body of `PyIKnownFolderManager::GetFolderIds`. -/
def GetFolderIds (E : Com) (self args : Ptr) : Ret :=
  let pIKFM := E.GetI self
  if pIKFM = NULL then ⟨NULL, []⟩
  else if E.parse_nothing args = false then ⟨NULL, []⟩
  else
    let hr := E.com_GetFolderIds.1
    let kfids := E.com_GetFolderIds.2.1
    let count := E.com_GetFolderIds.2.2
    if E.FAILED hr then
      ⟨E.PyCom_BuildPyException hr, [Call.PyCom_BuildPyException hr]⟩
    else
      -- PyObject *ret = PyTuple_New(count);
      let ret := E.PyTuple_New count
      if ret ≠ NULL then
        let l := GetFolderIds_loop E kfids ret count 0
        -- CoTaskMemFree(kfids); return ret;
        ⟨l.1, Call.PyTuple_New count :: l.2 ++ [Call.CoTaskMemFree kfids]⟩
      else
        ⟨ret, [Call.PyTuple_New count, Call.CoTaskMemFree kfids]⟩

/-- The body of `PyIKnownFolderManager::GetFolder`. -/
def GetFolder (E : Com) (self args : Ptr) : Ret :=
  let pIKFM := E.GetI self
  if pIKFM = NULL then ⟨NULL, []⟩
  else
    match E.parse_kfid args with
    | none => ⟨NULL, []⟩
    | some kfid =>
      let hr := (E.com_GetFolder kfid).1
      let ret := (E.com_GetFolder kfid).2
      if E.FAILED hr then
        ⟨E.PyCom_BuildPyException hr, [Call.PyCom_BuildPyException hr]⟩
      else ⟨E.PyCom_PyObjectFromIUnknown ret, [Call.PyCom_PyObjectFromIUnknown ret]⟩

/-- The body of `PyIKnownFolderManager::GetFolderByName`. -/
def GetFolderByName (E : Com) (self args : Ptr) : Ret :=
  let pIKFM := E.GetI self
  if pIKFM = NULL then ⟨NULL, []⟩
  else
    match E.parse_object args with
    | none => ⟨NULL, []⟩
    | some obname =>
      match E.PyWinObject_AsWCHAR obname with
      | none => ⟨NULL, []⟩
      | some name =>
        -- hr = pIKFM->GetFolderByName(name, &ret);
        let ret := (E.com_GetFolderByName name).2
        -- return PyCom_PyObjectFromIUnknown(ret, IID_IKnownFolder, FALSE);
        ⟨E.PyCom_PyObjectFromIUnknown ret, [Call.PyCom_PyObjectFromIUnknown ret]⟩

/-- The eight conversions of `PyWinObject_AsKNOWNFOLDER_DEFINITION`, joined by
`&&`: each stores its string in `def`, and the first failure ends the chain. -/
def convert_strings (E : Com) (k : ParsedKeywords) (d : KNOWNFOLDER_DEFINITION) :
    Bool × KNOWNFOLDER_DEFINITION :=
  match E.PyWinObject_AsTaskAllocatedWCHAR k.obName false with
  | none => (false, d)
  | some p1 =>
  let d1 := { d with pszName := p1 }
  match E.PyWinObject_AsTaskAllocatedWCHAR k.obDescription false with
  | none => (false, d1)
  | some p2 =>
  let d2 := { d1 with pszDescription := p2 }
  match E.PyWinObject_AsTaskAllocatedWCHAR k.obRelativePath true with
  | none => (false, d2)
  | some p3 =>
  let d3 := { d2 with pszRelativePath := p3 }
  match E.PyWinObject_AsTaskAllocatedWCHAR k.obParsingName true with
  | none => (false, d3)
  | some p4 =>
  let d4 := { d3 with pszParsingName := p4 }
  match E.PyWinObject_AsTaskAllocatedWCHAR k.obTooltip true with
  | none => (false, d4)
  | some p5 =>
  let d5 := { d4 with pszTooltip := p5 }
  match E.PyWinObject_AsTaskAllocatedWCHAR k.obLocalizedName true with
  | none => (false, d5)
  | some p6 =>
  let d6 := { d5 with pszLocalizedName := p6 }
  match E.PyWinObject_AsTaskAllocatedWCHAR k.obIcon true with
  | none => (false, d6)
  | some p7 =>
  let d7 := { d6 with pszIcon := p7 }
  match E.PyWinObject_AsTaskAllocatedWCHAR k.obSecurity true with
  | none => (false, d7)
  | some p8 => (true, { d7 with pszSecurity := p8 })

/-- The body of `PyWinObject_AsKNOWNFOLDER_DEFINITION(obdef, def)`: the `BOOL` it
returns, `def` afterwards, and the calls made. -/
def PyWinObject_AsKNOWNFOLDER_DEFINITION (E : Com) (obdef : Ptr) :
    Bool × KNOWNFOLDER_DEFINITION × List Call :=
  -- ZeroMemory(&def, sizeof(def));
  let d0 := zero_definition
  if E.PyDict_Check obdef = false then
    (false, d0, [Call.PyErr_SetString_TypeError])
  else
    -- TmpPyObject obdummy = PyTuple_New(0);
    let obdummy := E.PyTuple_New 0
    if obdummy = NULL then (false, d0, [Call.PyTuple_New 0])
    else
      let k := E.parse_keywords obdef
      let d1 : KNOWNFOLDER_DEFINITION :=
        { d0 with category := k.category, fidParent := k.fidParent,
                  dwAttributes := k.dwAttributes, kfdFlags := k.kfdFlags,
                  ftidType := k.ftidType }
      if k.ok = false then (false, d1, [Call.PyTuple_New 0, Call.Py_DECREF obdummy])
      else
        let c := convert_strings E k d1
        if c.1 = false then
          -- FreeKnownFolderDefinitionFields(&def);
          (false, E.FreeKnownFolderDefinitionFields c.2,
           [Call.PyTuple_New 0, Call.FreeKnownFolderDefinitionFields, Call.Py_DECREF obdummy])
        else (true, c.2, [Call.PyTuple_New 0, Call.Py_DECREF obdummy])

/-- The body of `PyIKnownFolderManager::RegisterFolder`. -/
def RegisterFolder (E : Com) (self args : Ptr) : Ret :=
  let pIKFM := E.GetI self
  if pIKFM = NULL then ⟨NULL, []⟩
  else
    match E.parse_kfid_object args with
    | none => ⟨NULL, []⟩
    | some (kfid, obdef) =>
      let a := PyWinObject_AsKNOWNFOLDER_DEFINITION E obdef
      if a.1 = false then ⟨NULL, a.2.2⟩
      else
        let hr := E.com_RegisterFolder kfid a.2.1
        -- FreeKnownFolderDefinitionFields(&def);
        if E.FAILED hr then
          ⟨E.PyCom_BuildPyException hr,
           a.2.2 ++ [Call.FreeKnownFolderDefinitionFields, Call.PyCom_BuildPyException hr]⟩
        else
          ⟨E.Py_None,
           a.2.2 ++ [Call.FreeKnownFolderDefinitionFields, Call.Py_INCREF E.Py_None]⟩

/-- The body of `PyIKnownFolderManager::UnregisterFolder`. -/
def UnregisterFolder (E : Com) (self args : Ptr) : Ret :=
  let pIKFM := E.GetI self
  if pIKFM = NULL then ⟨NULL, []⟩
  else
    match E.parse_kfid args with
    | none => ⟨NULL, []⟩
    | some kfid =>
      let hr := E.com_UnregisterFolder kfid
      if E.FAILED hr then
        ⟨E.PyCom_BuildPyException hr, [Call.PyCom_BuildPyException hr]⟩
      else ⟨E.Py_None, [Call.Py_INCREF E.Py_None]⟩

/-- The body of `PyIKnownFolderManager::FindFolderFromPath`. -/
def FindFolderFromPath (E : Com) (self args : Ptr) : Ret :=
  let pIKFM := E.GetI self
  if pIKFM = NULL then ⟨NULL, []⟩
  else
    match E.parse_path_mode args with
    | none => ⟨NULL, []⟩
    | some (obpath, mode) =>
      match E.PyWinObject_AsWCHAR obpath with
      | none => ⟨NULL, []⟩
      | some path =>
        let hr := (E.com_FindFolderFromPath path mode).1
        let ret := (E.com_FindFolderFromPath path mode).2
        if E.FAILED hr then
          ⟨E.PyCom_BuildPyException hr, [Call.PyCom_BuildPyException hr]⟩
        else ⟨E.PyCom_PyObjectFromIUnknown ret, [Call.PyCom_PyObjectFromIUnknown ret]⟩

/-- The body of `PyIKnownFolderManager::FindFolderFromIDList`. -/
def FindFolderFromIDList (E : Com) (self args : Ptr) : Ret :=
  let pIKFM := E.GetI self
  if pIKFM = NULL then ⟨NULL, []⟩
  else
    match E.parse_object args with
    | none => ⟨NULL, []⟩
    | some obpidl =>
      match E.PyObject_AsPIDL obpidl with
      | none => ⟨NULL, []⟩
      | some pidl =>
        let hr := (E.com_FindFolderFromIDList pidl).1
        let ret := (E.com_FindFolderFromIDList pidl).2
        -- PyObject_FreePIDL(pidl);
        if E.FAILED hr then
          ⟨E.PyCom_BuildPyException hr,
           [Call.PyObject_FreePIDL pidl, Call.PyCom_BuildPyException hr]⟩
        else
          ⟨E.PyCom_PyObjectFromIUnknown ret,
           [Call.PyObject_FreePIDL pidl, Call.PyCom_PyObjectFromIUnknown ret]⟩

/-- The body of `PyIKnownFolderManager::Redirect`. -/
def Redirect (E : Com) (self args : Ptr) : Ret :=
  let pIKFM := E.GetI self
  if pIKFM = NULL then ⟨NULL, []⟩
  else
    match E.parse_redirect args with
    | none => ⟨NULL, []⟩
    | some a =>
      match E.PyWinObject_AsWCHAR a.obTargetPath with
      | none => ⟨NULL, []⟩
      | some TargetPath =>
        match E.SeqToVector a.obExcludes with
        | none => ⟨NULL, []⟩
        | some (Excludes, cExcludes) =>
          let hr := (E.com_Redirect a.kfid a.hwnd a.flags TargetPath cExcludes Excludes).1
          let Error := (E.com_Redirect a.kfid a.hwnd a.flags TargetPath cExcludes Excludes).2
          -- CoTaskMemFree(Excludes);
          if E.FAILED hr then
            -- PyCom_BuildPyException(hr, ...); CoTaskMemFree(Error); return NULL;
            ⟨NULL, [Call.CoTaskMemFree Excludes, Call.PyCom_BuildPyException hr,
                    Call.CoTaskMemFree Error]⟩
          else ⟨E.Py_None, [Call.CoTaskMemFree Excludes, Call.Py_INCREF E.Py_None]⟩

/-- Calls that convert an output value of a COM method into a Python object. -/
def is_conversion : Call → Bool
  | Call.PyWinObject_FromIID _ => true
  | Call.PyInt_FromLong _ => true
  | Call.PyCom_PyObjectFromIUnknown _ => true
  | Call.PyTuple_New _ => true
  | _ => false

/-- Calls of `PyCom_BuildPyException`. -/
def is_exception : Call → Bool
  | Call.PyCom_BuildPyException _ => true
  | _ => false

/-- Calls of `PyTuple_SET_ITEM`. -/
def is_set_item : Call → Bool
  | Call.PyTuple_SET_ITEM _ _ _ => true
  | _ => false

/-- A COM object on which `GetFolderByName` fails with `0x80070002` (file not
found) and leaves the out-pointer null; `FAILED` is the sign test, the exception
builder returns `NULL`, and a null interface converts to the object at 9. -/
def ex_com : Com :=
  { FAILED := fun hr => decide (hr < 0),
    GetI := fun self => self,
    PyCom_BuildPyException := fun _ => NULL,
    PyWinObject_FromIID := fun iid => if iid = 0 then NULL else 1000 + iid,
    PyInt_FromLong := fun _ => 8,
    PyCom_PyObjectFromIUnknown := fun punk => if punk = NULL then 9 else 2000 + punk,
    PyTuple_New := fun _ => 7,
    Py_None := 9,
    PyDict_Check := fun _ => true,
    parse_csidl := fun _ => some 5,
    parse_kfid := fun _ => some 11,
    parse_nothing := fun _ => true,
    parse_object := fun args => some args,
    parse_path_mode := fun args => some (args, 0),
    parse_kfid_object := fun args => some (11, args),
    parse_redirect := fun args =>
      some { kfid := 11, hwnd := 0, flags := 0, obTargetPath := args, obExcludes := args },
    parse_keywords := fun _ =>
      { ok := true, category := 1, obName := 21, obDescription := 22, fidParent := 0,
        obRelativePath := 23, obParsingName := 24, obTooltip := 25, obLocalizedName := 26,
        obIcon := 27, obSecurity := 28, dwAttributes := 0, kfdFlags := 0, ftidType := 0 },
    PyWinObject_AsWCHAR := fun ob => some (3000 + ob),
    PyWinObject_AsTaskAllocatedWCHAR := fun ob _ => some (4000 + ob),
    PyObject_AsPIDL := fun ob => some (5000 + ob),
    SeqToVector := fun ob => some (6000 + ob, 0),
    FreeKnownFolderDefinitionFields := fun d => d,
    com_FolderIdFromCsidl := fun _ => (0, 11),
    com_FolderIdToCsidl := fun _ => (0, 5),
    com_GetFolderIds := (0, 600, 3),
    kfids_at := fun _ i => 11 + i,
    com_GetFolder := fun _ => (0, 70),
    com_GetFolderByName := fun _ => (-2147024894, NULL),
    com_RegisterFolder := fun _ _ => 0,
    com_UnregisterFolder := fun _ => 0,
    com_FindFolderFromPath := fun _ _ => (-2147024894, NULL),
    com_FindFolderFromIDList := fun _ => (0, 70),
    com_Redirect := fun _ _ _ _ _ _ => (0, NULL) }

/-- `ex_com` with the second id of the array not convertible. -/
def ex_com_bad_id : Com :=
  { ex_com with PyWinObject_FromIID := fun iid => if iid = 12 then NULL else 1000 + iid }

end PyIKnownFolderManager

/-! ## The script-debugger gateways (`axdebug/src/PyIRemoteDebugApplicationThread.cpp`,
`axdebug/src/PyIDebugDocumentHelper.cpp`)

A gateway method is called by COM and forwards to a Python object through
`InvokeViaPolicy`.  The five methods with an interface out-parameter are
embedded; what they use and do not define is the fields of `Gateway`.  A method
returns its `HRESULT` and the list of calls and stores it made. -/

namespace AXDebugGateway

/-- A machine address; `0` is the null pointer. -/
abbrev Ptr := Nat

/-- The null pointer. -/
def NULL : Ptr := 0

/-- A COM status code. -/
abbrev HRESULT := Int

/-- The Python method a gateway method forwards to. -/
inductive Method where
  | GetApplication
  | EnumStackFrames
  | GetDebugApplicationNode
  | GetScriptBlockInfo
  | CreateDebugDocumentContext
  deriving DecidableEq, Repr

/-- The interface asked of `PyCom_InterfaceFromPyInstanceOrObject`. -/
inductive InterfaceId where
  | IID_IRemoteDebugApplication
  | IID_IEnumDebugStackFrames
  | IID_IDebugApplicationNode
  | IID_IActiveScript
  | IID_IDebugDocumentContext
  deriving DecidableEq, Repr

/-- A call or a store through a pointer that a gateway method makes. -/
inductive GCall where
  | PY_GATEWAY_METHOD
  | InvokeViaPolicy (m : Method) (args : List Int)
  | store (p : Ptr) (v : Int)
  | PyCom_HandlePythonFailureToCOM
  | Py_DECREF (o : Ptr)
  deriving DecidableEq, Repr

/-- What a gateway method yields: its status and what it did. -/
structure GRet where
  hr : HRESULT
  calls : List GCall
  deriving DecidableEq, Repr

/-- What `PyArg_ParseTuple(result, "Oii", &obppasd, piCharPos, pcChars)` does:
its verdict, the object, and the values it stored through the two pointers (none
where it stored nothing). -/
structure ParsedBlockInfo where
  ok : Bool
  obppasd : Ptr
  iCharPos : Option Int
  cChars : Option Int

/-- Everything the gateway methods use and do not define. -/
structure Gateway where
  /-- the constant `E_POINTER` -/
  E_POINTER : HRESULT
  /-- the macro `FAILED` -/
  FAILED : HRESULT → Bool
  /-- `InvokeViaPolicy(name, &result, format, ...)`: status and `result` -/
  InvokeViaPolicy : Method → List Int → HRESULT × Ptr
  /-- `PyArg_Parse(result, "O", &ob)` -/
  PyArg_Parse_O : Ptr → Option Ptr
  /-- `PyArg_ParseTuple(result, "Oii", ...)` -/
  PyArg_ParseTuple_Oii : Ptr → ParsedBlockInfo
  /-- `PyCom_InterfaceFromPyInstanceOrObject(ob, iid, ppv, bNoneOK)`: its
  verdict and the value it stored through `ppv` (none where it stored nothing) -/
  PyCom_InterfaceFromPyInstanceOrObject : Ptr → InterfaceId → Bool → Bool × Option Int
  /-- the value `PyCom_HandlePythonFailureToCOM()` returns -/
  PyCom_HandlePythonFailureToCOM : HRESULT

/-- The store a helper made through `p`, if it made one. -/
def stores (p : Ptr) (v : Option Int) : List GCall :=
  match v with
  | some x => [GCall.store p x]
  | none => []

/-- The body of `PyGRemoteDebugApplicationThread::GetApplication`. -/
def GetApplication (G : Gateway) (pprda : Ptr) : GRet :=
  -- PY_GATEWAY_METHOD; if (pprda==NULL) return E_POINTER;
  if pprda = NULL then ⟨G.E_POINTER, [GCall.PY_GATEWAY_METHOD]⟩
  else
    let inv := G.InvokeViaPolicy Method.GetApplication []
    let pre := [GCall.PY_GATEWAY_METHOD, GCall.InvokeViaPolicy Method.GetApplication []]
    if G.FAILED inv.1 then ⟨inv.1, pre⟩
    else
      match G.PyArg_Parse_O inv.2 with
      | none =>
        ⟨G.PyCom_HandlePythonFailureToCOM, pre ++ [GCall.PyCom_HandlePythonFailureToCOM]⟩
      | some ob =>
        let c := G.PyCom_InterfaceFromPyInstanceOrObject ob
          InterfaceId.IID_IRemoteDebugApplication true
        if c.1 = false then
          ⟨G.PyCom_HandlePythonFailureToCOM,
           pre ++ stores pprda c.2 ++
             [GCall.PyCom_HandlePythonFailureToCOM, GCall.Py_DECREF inv.2]⟩
        else ⟨inv.1, pre ++ stores pprda c.2 ++ [GCall.Py_DECREF inv.2]⟩

/-- The body of `PyGRemoteDebugApplicationThread::EnumStackFrames`. -/
def EnumStackFrames (G : Gateway) (ppedsf : Ptr) : GRet :=
  -- PY_GATEWAY_METHOD; if (ppedsf==NULL) return E_POINTER;
  if ppedsf = NULL then ⟨G.E_POINTER, [GCall.PY_GATEWAY_METHOD]⟩
  else
    let inv := G.InvokeViaPolicy Method.EnumStackFrames []
    let pre := [GCall.PY_GATEWAY_METHOD, GCall.InvokeViaPolicy Method.EnumStackFrames []]
    if G.FAILED inv.1 then ⟨inv.1, pre⟩
    else
      match G.PyArg_Parse_O inv.2 with
      | none =>
        ⟨G.PyCom_HandlePythonFailureToCOM, pre ++ [GCall.PyCom_HandlePythonFailureToCOM]⟩
      | some ob =>
        let c := G.PyCom_InterfaceFromPyInstanceOrObject ob
          InterfaceId.IID_IEnumDebugStackFrames true
        if c.1 = false then
          ⟨G.PyCom_HandlePythonFailureToCOM,
           pre ++ stores ppedsf c.2 ++
             [GCall.PyCom_HandlePythonFailureToCOM, GCall.Py_DECREF inv.2]⟩
        else ⟨inv.1, pre ++ stores ppedsf c.2 ++ [GCall.Py_DECREF inv.2]⟩

/-- The body of `PyGDebugDocumentHelper::GetDebugApplicationNode`. -/
def GetDebugApplicationNode (G : Gateway) (ppdan : Ptr) : GRet :=
  -- PY_GATEWAY_METHOD; if (ppdan==NULL) return E_POINTER;
  if ppdan = NULL then ⟨G.E_POINTER, [GCall.PY_GATEWAY_METHOD]⟩
  else
    let inv := G.InvokeViaPolicy Method.GetDebugApplicationNode []
    let pre := [GCall.PY_GATEWAY_METHOD,
      GCall.InvokeViaPolicy Method.GetDebugApplicationNode []]
    if G.FAILED inv.1 then ⟨inv.1, pre⟩
    else
      match G.PyArg_Parse_O inv.2 with
      | none =>
        ⟨G.PyCom_HandlePythonFailureToCOM, pre ++ [GCall.PyCom_HandlePythonFailureToCOM]⟩
      | some ob =>
        let c := G.PyCom_InterfaceFromPyInstanceOrObject ob
          InterfaceId.IID_IDebugApplicationNode false
        if c.1 = false then
          ⟨G.PyCom_HandlePythonFailureToCOM,
           pre ++ stores ppdan c.2 ++
             [GCall.PyCom_HandlePythonFailureToCOM, GCall.Py_DECREF inv.2]⟩
        else ⟨inv.1, pre ++ stores ppdan c.2 ++ [GCall.Py_DECREF inv.2]⟩

/-- The body of `PyGDebugDocumentHelper::GetScriptBlockInfo`. -/
def GetScriptBlockInfo (G : Gateway) (dwSourceContext : Int) (ppasd piCharPos pcChars : Ptr) :
    GRet :=
  -- PY_GATEWAY_METHOD; if (ppasd==NULL) return E_POINTER;
  if ppasd = NULL then ⟨G.E_POINTER, [GCall.PY_GATEWAY_METHOD]⟩
  else
    let inv := G.InvokeViaPolicy Method.GetScriptBlockInfo [dwSourceContext]
    let pre := [GCall.PY_GATEWAY_METHOD,
      GCall.InvokeViaPolicy Method.GetScriptBlockInfo [dwSourceContext]]
    if G.FAILED inv.1 then ⟨inv.1, pre⟩
    else
      let k := G.PyArg_ParseTuple_Oii inv.2
      let parsed := stores piCharPos k.iCharPos ++ stores pcChars k.cChars
      if k.ok = false then
        ⟨G.PyCom_HandlePythonFailureToCOM,
         pre ++ parsed ++ [GCall.PyCom_HandlePythonFailureToCOM]⟩
      else
        let c := G.PyCom_InterfaceFromPyInstanceOrObject k.obppasd
          InterfaceId.IID_IActiveScript false
        if c.1 = false then
          ⟨G.PyCom_HandlePythonFailureToCOM,
           pre ++ parsed ++ stores ppasd c.2 ++
             [GCall.PyCom_HandlePythonFailureToCOM, GCall.Py_DECREF inv.2]⟩
        else ⟨inv.1, pre ++ parsed ++ stores ppasd c.2 ++ [GCall.Py_DECREF inv.2]⟩

/-- The body of `PyGDebugDocumentHelper::CreateDebugDocumentContext`. -/
def CreateDebugDocumentContext (G : Gateway) (iCharPos cChars : Int) (ppddc : Ptr) : GRet :=
  -- PY_GATEWAY_METHOD; if (ppddc==NULL) return E_POINTER;
  if ppddc = NULL then ⟨G.E_POINTER, [GCall.PY_GATEWAY_METHOD]⟩
  else
    let inv := G.InvokeViaPolicy Method.CreateDebugDocumentContext [iCharPos, cChars]
    let pre := [GCall.PY_GATEWAY_METHOD,
      GCall.InvokeViaPolicy Method.CreateDebugDocumentContext [iCharPos, cChars]]
    if G.FAILED inv.1 then ⟨inv.1, pre⟩
    else
      match G.PyArg_Parse_O inv.2 with
      | none =>
        ⟨G.PyCom_HandlePythonFailureToCOM, pre ++ [GCall.PyCom_HandlePythonFailureToCOM]⟩
      | some ob =>
        let c := G.PyCom_InterfaceFromPyInstanceOrObject ob
          InterfaceId.IID_IDebugDocumentContext false
        if c.1 = false then
          ⟨G.PyCom_HandlePythonFailureToCOM,
           pre ++ stores ppddc c.2 ++
             [GCall.PyCom_HandlePythonFailureToCOM, GCall.Py_DECREF inv.2]⟩
        else ⟨inv.1, pre ++ stores ppddc c.2 ++ [GCall.Py_DECREF inv.2]⟩

/-- Calls of `InvokeViaPolicy`. -/
def is_invoke : GCall → Bool
  | GCall.InvokeViaPolicy _ _ => true
  | _ => false

/-- Stores through a pointer. -/
def is_store : GCall → Bool
  | GCall.store _ _ => true
  | _ => false

end AXDebugGateway

namespace SafePickle

/-! ## Lemmas: heap maps, and each path as one equation -/

@[simp]
theorem upd_same {α : Type} (m : Ptr → α) (k : Ptr) (v : α) : upd m k v k = v := by
  simp [upd]

theorem upd_other {α : Type} (m : Ptr → α) (k x : Ptr) (v : α) (h : x ≠ k) :
    upd m k v x = m x := by
  simp [upd, h]

theorem Py_XDECREF_eq (op : Ptr) (w : World) :
    Py_XDECREF op w =
      { w with ob_refcnt :=
          if op = NULL then w.ob_refcnt else upd w.ob_refcnt op (w.ob_refcnt op - 1) } := by
  unfold Py_XDECREF Py_DECREF
  split <;> rfl

theorem Py_XINCREF_eq (op : Ptr) (w : World) :
    Py_XINCREF op w =
      { w with ob_refcnt :=
          if op = NULL then w.ob_refcnt else upd w.ob_refcnt op (w.ob_refcnt op + 1) } := by
  unfold Py_XINCREF Py_INCREF
  split <;> rfl

/-- Direct path: the whole call in one equation. -/
theorem slp_safe_pickling_direct_eq (E : Env) (save self args : Ptr) (pers_save : Int)
    (w : World) (hroot : w.cstack_root = NULL) :
    slp_safe_pickling E save self args pers_save w =
      ⟨(E.code save self args pers_save (direct_call_world E w)).val,
       { (E.code save self args pers_save (direct_call_world E w)).st with
           cstack_root := NULL },
       Event.save save self args pers_save ::
         (E.code save self args pers_save (direct_call_world E w)).tr⟩ := by
  simp [slp_safe_pickling, hroot, direct_call_world]

/-- Record-and-transfer path, transfer completed: the whole call in one equation. -/
theorem slp_safe_pickling_transfer_eq (E : Env) (save self args : Ptr) (pers_save : Int)
    (w : World) (seg retval : Ptr) (hroot : w.cstack_root ≠ NULL) (hmain : w.main ≠ NULL)
    (hcf : E.cframe_addr ≠ NULL) (ht : E.transfer = TransferOutcome.switch seg retval)
    (hret : retval ≠ NULL) :
    slp_safe_pickling E save self args pers_save w =
      ⟨(E.code save self args pers_save
          (nested_call_world E save self args pers_save seg retval w)).val,
       nested_return_world E seg w
         (E.code save self args pers_save
           (nested_call_world E save self args pers_save seg retval w)),
       [Event.slp_cframe_new ExecFunc.pickle_callback 1,
        Event.slp_transfer w.current NULL w.current,
        Event.save save self args pers_save] ++
        (E.code save self args pers_save
          (nested_call_world E save self args pers_save seg retval w)).tr ++
        [Event.slp_transfer_return seg]⟩ := by
  simp [slp_safe_pickling, hroot, hmain, hcf, slp_cframe_new, slp_transfer, ht, run_frame,
    pickle_callback, hret, nested_call_world, transfer_world, nested_return_world,
    Py_INCREF, Py_DECREF, Py_XDECREF_eq, Py_XINCREF_eq, set_cstate, set_i]

/-- Record-and-transfer path, transfer failed: the whole call in one equation. -/
theorem slp_safe_pickling_fault_eq (E : Env) (save self args : Ptr) (pers_save : Int)
    (w : World) (status : Int) (hroot : w.cstack_root ≠ NULL) (hmain : w.main ≠ NULL)
    (hcf : E.cframe_addr ≠ NULL) (ht : E.transfer = TransferOutcome.fault status)
    (hs : status < 0) :
    slp_safe_pickling E save self args pers_save w =
      ⟨-1, transfer_world E save self args pers_save w,
       [Event.slp_cframe_new ExecFunc.pickle_callback 1,
        Event.slp_transfer w.current NULL w.current]⟩ := by
  simp [slp_safe_pickling, hroot, hmain, hcf, slp_cframe_new, slp_transfer, ht, hs,
    Py_INCREF, set_cstate, transfer_world]

/-- Bootstrap path, record created and frame run: the whole call in one
equation. -/
theorem slp_safe_pickling_bootstrap_eq (E : Env) (save self args : Ptr) (pers_save : Int)
    (w : World) (retval : Ptr) (hroot : w.cstack_root ≠ NULL) (hmain : w.main = NULL)
    (hcf : E.cframe_addr ≠ NULL) (he : E.eval_frame = EvalOutcome.run retval) :
    slp_safe_pickling E save self args pers_save w =
      ⟨E.slp_int_wrapper (E.PyInt_FromLong
         (E.code save self args pers_save
           (bootstrap_call_world E save self args pers_save retval w)).val),
       { (E.code save self args pers_save
           (bootstrap_call_world E save self args pers_save retval w)).st with
           cstack_root := w.cstack_root },
       [Event.slp_cframe_new ExecFunc.pickle_runmain 0,
        Event.slp_eval_frame E.cframe_addr,
        Event.save save self args pers_save] ++
        (E.code save self args pers_save
          (bootstrap_call_world E save self args pers_save retval w)).tr⟩ := by
  simp [slp_safe_pickling, hroot, hmain, hcf, pickle_M, slp_cframe_new, slp_eval_frame, he,
    run_frame, pickle_runmain, bootstrap_call_world, Py_DECREF, Py_XDECREF_eq]

/-- The boundary marker after `pickle_callback` is the one it found. -/
theorem pickle_callback_root (E : Env) (f : Ptr) (exc : Int) (retval : Ptr) (w : World) :
    (pickle_callback E f exc retval w).st.cstack_root = w.cstack_root := by
  simp [pickle_callback, set_cstate, Py_INCREF, Py_DECREF]

/-- The boundary marker after `pickle_M` is the one it found. -/
theorem pickle_M_root (E : Env) (self args : Ptr) (pers_save : Int) (w : World) :
    (pickle_M E self args pers_save w).st.cstack_root = w.cstack_root := by
  unfold pickle_M slp_cframe_new
  by_cases h : E.cframe_addr = NULL <;> simp [h]

/-- The boundary marker after `slp_safe_pickling` is the one it found, whatever
the callback does and on every path. -/
theorem slp_safe_pickling_root (E : Env) (save self args : Ptr) (pers_save : Int) (w : World) :
    (slp_safe_pickling E save self args pers_save w).st.cstack_root = w.cstack_root := by
  by_cases hroot : w.cstack_root = NULL
  · rw [slp_safe_pickling_direct_eq E save self args pers_save w hroot]
    exact hroot.symm
  · by_cases hmain : w.main = NULL
    · simp [slp_safe_pickling, hroot, hmain, pickle_M_root]
    · by_cases hcf : E.cframe_addr = NULL
      · simp [slp_safe_pickling, hroot, hmain, hcf, slp_cframe_new, Py_XDECREF_eq]
      · cases ht : E.transfer with
        | fault status =>
          by_cases hs : status < 0 <;>
            simp [slp_safe_pickling, hroot, hmain, hcf, slp_cframe_new, slp_transfer, ht, hs,
              Py_XDECREF_eq, Py_INCREF, set_cstate]
        | switch seg retval =>
          simp [slp_safe_pickling, hroot, hmain, hcf, slp_cframe_new, slp_transfer, ht,
            Py_XDECREF_eq, Py_XINCREF_eq, Py_INCREF, set_cstate, run_frame,
            pickle_callback_root]

theorem ex_box_unbox (v : Int) : ex_unbox (ex_box v) = v := by
  unfold ex_unbox ex_box
  by_cases h : 0 ≤ v
  · have h2 : ((v.toNat : Nat) : Int) = v := Int.toNat_of_nonneg h
    simp only [h, if_true]
    have h3 : (2 * v.toNat + 2) % 2 = 0 := by omega
    have h4 : (2 * v.toNat + 2) / 2 = v.toNat + 1 := by omega
    simp only [h3, h4, if_true]
    push_cast
    omega
  · have h2 : (((-v).toNat : Nat) : Int) = -v := Int.toNat_of_nonneg (by omega)
    simp only [h, if_false]
    have h3 : (2 * (-v).toNat + 1) % 2 = 1 := by omega
    have h4 : (2 * (-v).toNat + 1) / 2 = (-v).toNat := by omega
    simp only [h3, h4]
    simp only [one_ne_zero, if_false]
    omega

theorem ex_env_round (cb : SaveFn) (t : TransferOutcome) (e : EvalOutcome) (v : Int) :
    (ex_env cb t e).slp_int_wrapper ((ex_env cb t e).PyInt_FromLong v) = v :=
  ex_box_unbox v

/-- Record-and-transfer path, record creation failed: the whole call in one
equation. -/
theorem slp_safe_pickling_norecord_eq (E : Env) (save self args : Ptr) (pers_save : Int)
    (w : World) (hroot : w.cstack_root ≠ NULL) (hmain : w.main ≠ NULL)
    (hcf : E.cframe_addr = NULL) :
    slp_safe_pickling E save self args pers_save w =
      ⟨-1, { w with cPickle_save := save },
       [Event.slp_cframe_new ExecFunc.pickle_callback 1]⟩ := by
  simp [slp_safe_pickling, hroot, hmain, hcf, slp_cframe_new, Py_XDECREF_eq]

/-- Record-and-transfer path, `pickle_callback` resumed with a null `retval`: the
whole call in one equation. -/
theorem slp_safe_pickling_transfer_null_eq (E : Env) (save self args : Ptr)
    (pers_save : Int) (w : World) (seg : Ptr) (hroot : w.cstack_root ≠ NULL)
    (hmain : w.main ≠ NULL) (hcf : E.cframe_addr ≠ NULL)
    (ht : E.transfer = TransferOutcome.switch seg NULL) :
    slp_safe_pickling E save self args pers_save w =
      ⟨-1, nested_null_return_world E save self args pers_save seg w,
       [Event.slp_cframe_new ExecFunc.pickle_callback 1,
        Event.slp_transfer w.current NULL w.current,
        Event.slp_transfer_return seg]⟩ := by
  simp [slp_safe_pickling, hroot, hmain, hcf, slp_cframe_new, slp_transfer, ht, run_frame,
    pickle_callback, nested_null_return_world, resume_world, transfer_world,
    Py_INCREF, Py_DECREF, Py_XDECREF_eq, Py_XINCREF_eq, set_cstate, set_i]

/-- The call world of the record-and-transfer path is the call world of
`pickle_callback` entered in `resume_world`. -/
theorem nested_call_world_eq (E : Env) (save self args : Ptr) (pers_save : Int)
    (seg retval : Ptr) (w : World) :
    nested_call_world E save self args pers_save seg retval w =
      callback_call_world E retval (resume_world E save self args pers_save seg w) := by
  by_cases hcf : E.cframe_addr = NULL <;>
    simp [nested_call_world, callback_call_world, resume_world, transfer_world,
      slp_cframe_new, hcf, Py_INCREF, Py_DECREF, Py_XINCREF_eq, set_cstate]

/-- The path a call takes is the case the specification selects. -/
theorem slp_safe_pickling_path (E : Env) (save self args : Ptr) (pers_save : Int)
    (w : World) :
    path_taken (slp_safe_pickling E save self args pers_save w).tr = some (spec_case w) := by
  by_cases hroot : w.cstack_root = NULL
  · simp [slp_safe_pickling, hroot, path_taken, spec_case]
  · by_cases hmain : w.main = NULL
    · by_cases hcf : E.cframe_addr = NULL <;>
        simp [slp_safe_pickling, hroot, hmain, hcf, pickle_M, slp_cframe_new, path_taken,
          spec_case]
    · by_cases hcf : E.cframe_addr = NULL
      · simp [slp_safe_pickling, hroot, hmain, hcf, slp_cframe_new, path_taken, spec_case]
      · simp [slp_safe_pickling, hroot, hmain, hcf, slp_cframe_new, path_taken, spec_case,
          apply_ite Res.tr]

/-- C1: on the direct path (`cstack_root` is `NULL` on entry), if
`save(self, args, pers_save)` returns `r` then `slp_safe_pickling` returns `r`, and
the only call the function itself makes is that one call of `save` with those
three arguments (the rest of the trace is what the callback did). -/
theorem C1_direct_returns_callback_result (E : Env) (save self args : Ptr) (pers_save : Int)
    (w : World) (r : Int) (hroot : w.cstack_root = NULL)
    (hr : (E.code save self args pers_save (direct_call_world E w)).val = r) :
    (slp_safe_pickling E save self args pers_save w).val = r ∧
    (slp_safe_pickling E save self args pers_save w).tr =
      Event.save save self args pers_save ::
        (E.code save self args pers_save (direct_call_world E w)).tr := by
  subst hr
  simp [slp_safe_pickling, hroot, direct_call_world]

/-- C1 at a concrete input: a top-level call with a callback returning 42. -/
theorem C1_witness :
    (ex_world NULL 1).cstack_root = NULL ∧
    (slp_safe_pickling (ex_env ex_save_42 (TransferOutcome.fault (-1)) EvalOutcome.fault)
        5 6 7 0 (ex_world NULL 1)).val = 42 ∧
    (slp_safe_pickling (ex_env ex_save_42 (TransferOutcome.fault (-1)) EvalOutcome.fault)
        5 6 7 0 (ex_world NULL 1)).tr = [Event.save 5 6 7 0] :=
  ⟨rfl, C1_direct_returns_callback_result
    (ex_env ex_save_42 (TransferOutcome.fault (-1)) EvalOutcome.fault) 5 6 7 0
    (ex_world NULL 1) 42 rfl rfl⟩

/-- C2: the boundary marker `cstack_root` when `slp_safe_pickling` returns equals
its value on entry, on each of the three paths, for every callback (so both for a
success value and for -1); and the same holds for a call whose callback is any
finite nesting of further `slp_safe_pickling` calls. -/
theorem C2_no_marker_leak :
    (∀ (E : Env) (save self args : Ptr) (pers_save : Int) (w : World),
      (slp_safe_pickling E save self args pers_save w).st.cstack_root = w.cstack_root) ∧
    (∀ (envs : Nat → Env) (leaf : SaveFn) (fn : Ptr) (depth : Nat) (self args : Ptr)
      (pers_save : Int) (w : World),
      (nested_save envs leaf fn (depth + 1) self args pers_save w).st.cstack_root =
        w.cstack_root) := by
  refine ⟨slp_safe_pickling_root, ?_⟩
  intro envs leaf fn depth self args pers_save w
  simp only [nested_save]
  exact slp_safe_pickling_root _ fn self args pers_save w

/-- C3: on the record-and-transfer path (`cstack_root` and `main` non-null, the
record created, the transfer resuming `pickle_callback` with a non-null
`retval`), if `save(self, args, pers_save)` returns `r` then `slp_safe_pickling`
returns `r`, and `r` is the value in the record's result slot `cf->i`. -/
theorem C3_nested_returns_callback_result (E : Env) (save self args : Ptr) (pers_save : Int)
    (w : World) (seg retval : Ptr) (r : Int)
    (hroot : w.cstack_root ≠ NULL) (hmain : w.main ≠ NULL) (hcf : E.cframe_addr ≠ NULL)
    (ht : E.transfer = TransferOutcome.switch seg retval) (hret : retval ≠ NULL)
    (hr : (E.code save self args pers_save
            (nested_call_world E save self args pers_save seg retval w)).val = r) :
    (slp_safe_pickling E save self args pers_save w).val = r ∧
    ((slp_safe_pickling E save self args pers_save w).st.cframe E.cframe_addr).i = r := by
  subst hr
  rw [slp_safe_pickling_transfer_eq E save self args pers_save w seg retval hroot hmain hcf ht
    hret]
  simp [nested_return_world, Py_XDECREF_eq, Py_DECREF, set_cstate, set_i]

/-- C3 at a concrete input: a nested call, transfer capturing segment 50 and
resuming with object 60, callback returning 42. -/
theorem C3_witness :
    ((ex_world 100 1).cstack_root ≠ NULL ∧ (ex_world 100 1).main ≠ NULL) ∧
    (slp_safe_pickling (ex_env ex_save_42 (TransferOutcome.switch 50 60) EvalOutcome.fault)
        5 6 7 0 (ex_world 100 1)).val = 42 ∧
    ((slp_safe_pickling (ex_env ex_save_42 (TransferOutcome.switch 50 60) EvalOutcome.fault)
        5 6 7 0 (ex_world 100 1)).st.cframe 500).i = 42 :=
  ⟨⟨by decide, by decide⟩, C3_nested_returns_callback_result
    (ex_env ex_save_42 (TransferOutcome.switch 50 60) EvalOutcome.fault) 5 6 7 0
    (ex_world 100 1) 50 60 42 (by decide) (by decide) (by decide) rfl (by decide) rfl⟩

/-- C4 (as amended): when `slp_transfer` returns a negative status on the
record-and-transfer path, `slp_safe_pickling` returns -1 and has not called the
callback: its calls are the record creation and the transfer, nothing else.  -1
is also what it returns when the callback reports failure. -/
theorem C4_fatal_transfer_returns_minus_one (E : Env) (save self args : Ptr)
    (pers_save : Int) (w : World) (status : Int)
    (hroot : w.cstack_root ≠ NULL) (hmain : w.main ≠ NULL) (hcf : E.cframe_addr ≠ NULL)
    (ht : E.transfer = TransferOutcome.fault status) (hs : status < 0) :
    (slp_safe_pickling E save self args pers_save w).val = -1 ∧
    (slp_safe_pickling E save self args pers_save w).tr =
      [Event.slp_cframe_new ExecFunc.pickle_callback 1,
       Event.slp_transfer w.current NULL w.current] := by
  rw [slp_safe_pickling_fault_eq E save self args pers_save w status hroot hmain hcf ht hs]
  exact ⟨rfl, rfl⟩

/-- C4 (as amended) at a concrete input: a nested call whose transfer fails with
status -1. -/
theorem C4_witness :
    ((ex_world 100 1).cstack_root ≠ NULL ∧ (ex_world 100 1).main ≠ NULL) ∧
    (slp_safe_pickling (ex_env ex_save_42 (TransferOutcome.fault (-1)) EvalOutcome.fault)
        5 6 7 0 (ex_world 100 1)).val = -1 ∧
    (slp_safe_pickling (ex_env ex_save_42 (TransferOutcome.fault (-1)) EvalOutcome.fault)
        5 6 7 0 (ex_world 100 1)).tr =
      [Event.slp_cframe_new ExecFunc.pickle_callback 1, Event.slp_transfer 20 NULL 20] :=
  ⟨⟨by decide, by decide⟩, C4_fatal_transfer_returns_minus_one
    (ex_env ex_save_42 (TransferOutcome.fault (-1)) EvalOutcome.fault) 5 6 7 0
    (ex_world 100 1) (-1) (by decide) (by decide) (by decide) rfl (by decide)⟩

/-- C4 (counterexample): with the transfer failing (status -1) in one call and
the callback reporting failure in another, both on the record-and-transfer path,
`slp_safe_pickling` returns the same value, -1. -/
theorem C4_counterexample :
    (ex_env ex_save_42 (TransferOutcome.fault (-1)) EvalOutcome.fault).transfer =
      TransferOutcome.fault (-1) ∧
    (ex_env ex_save_fail (TransferOutcome.switch 50 60) EvalOutcome.fault).transfer =
      TransferOutcome.switch 50 60 ∧
    ¬ ((slp_safe_pickling (ex_env ex_save_42 (TransferOutcome.fault (-1)) EvalOutcome.fault)
          5 6 7 0 (ex_world 100 1)).val ≠
       (slp_safe_pickling (ex_env ex_save_fail (TransferOutcome.switch 50 60) EvalOutcome.fault)
          5 6 7 0 (ex_world 100 1)).val) := by
  refine ⟨rfl, rfl, ?_⟩
  decide

/-- C5 (as amended): when `slp_transfer` returns a negative status on the
record-and-transfer path, `cstack_root` on return equals its value on entry,
and `cur->cstate` is not put back: it holds the `NULL` stored before the
transfer. -/
theorem C5_fatal_transfer_state (E : Env) (save self args : Ptr)
    (pers_save : Int) (w : World) (status : Int)
    (hroot : w.cstack_root ≠ NULL) (hmain : w.main ≠ NULL) (hcf : E.cframe_addr ≠ NULL)
    (ht : E.transfer = TransferOutcome.fault status) (hs : status < 0) :
    (slp_safe_pickling E save self args pers_save w).st.cstack_root = w.cstack_root ∧
    (slp_safe_pickling E save self args pers_save w).st.cstate w.current = NULL := by
  rw [slp_safe_pickling_fault_eq E save self args pers_save w status hroot hmain hcf ht hs]
  simp [transfer_world, slp_cframe_new, hcf, Py_INCREF, set_cstate]

/-- C5 (as amended) at a concrete input: a nested call whose transfer fails with
status -1. -/
theorem C5_witness :
    ((ex_world 100 1).cstack_root ≠ NULL ∧ (ex_world 100 1).main ≠ NULL) ∧
    (slp_safe_pickling (ex_env ex_save_42 (TransferOutcome.fault (-1)) EvalOutcome.fault)
        5 6 7 0 (ex_world 100 1)).st.cstack_root = 100 ∧
    (slp_safe_pickling (ex_env ex_save_42 (TransferOutcome.fault (-1)) EvalOutcome.fault)
        5 6 7 0 (ex_world 100 1)).st.cstate 20 = NULL :=
  ⟨⟨by decide, by decide⟩, C5_fatal_transfer_state
    (ex_env ex_save_42 (TransferOutcome.fault (-1)) EvalOutcome.fault) 5 6 7 0
    (ex_world 100 1) (-1) (by decide) (by decide) (by decide) rfl (by decide)⟩

/-- C5 (counterexample): the current tasklet is on segment 40 on entry; the
transfer fails with status -1; on return `cur->cstate` is `NULL`, not 40. -/
theorem C5_counterexample :
    (ex_world 100 1).cstate (ex_world 100 1).current = 40 ∧
    ¬ ((slp_safe_pickling (ex_env ex_save_42 (TransferOutcome.fault (-1)) EvalOutcome.fault)
          5 6 7 0 (ex_world 100 1)).st.cstate (ex_world 100 1).current =
        (ex_world 100 1).cstate (ex_world 100 1).current ∧
       (slp_safe_pickling (ex_env ex_save_42 (TransferOutcome.fault (-1)) EvalOutcome.fault)
          5 6 7 0 (ex_world 100 1)).st.cstack_root = (ex_world 100 1).cstack_root) := by
  refine ⟨rfl, ?_⟩
  decide

/-- C7: on the direct path `slp_safe_pickling` makes no call of `slp_cframe_new`,
`slp_transfer` or `slp_eval_frame` (the trace holds exactly as many of each as the
callback made), hands the callback `ts->frame`, `cur->cstate`, `nesting_level`
and `cPickle_save` as they were on entry, and returns them as the callback left
them. -/
theorem C7_direct_path_no_scheduling (E : Env) (save self args : Ptr) (pers_save : Int)
    (w : World) (hroot : w.cstack_root = NULL) :
    ((slp_safe_pickling E save self args pers_save w).tr.countP is_cframe_new =
        (E.code save self args pers_save (direct_call_world E w)).tr.countP is_cframe_new ∧
      (slp_safe_pickling E save self args pers_save w).tr.countP is_transfer =
        (E.code save self args pers_save (direct_call_world E w)).tr.countP is_transfer ∧
      (slp_safe_pickling E save self args pers_save w).tr.countP is_eval_frame =
        (E.code save self args pers_save (direct_call_world E w)).tr.countP is_eval_frame) ∧
    ((direct_call_world E w).frame = w.frame ∧
      (direct_call_world E w).cstate = w.cstate ∧
      (direct_call_world E w).nesting_level = w.nesting_level ∧
      (direct_call_world E w).cPickle_save = w.cPickle_save) ∧
    ((slp_safe_pickling E save self args pers_save w).st.frame =
        (E.code save self args pers_save (direct_call_world E w)).st.frame ∧
      (slp_safe_pickling E save self args pers_save w).st.cstate =
        (E.code save self args pers_save (direct_call_world E w)).st.cstate ∧
      (slp_safe_pickling E save self args pers_save w).st.nesting_level =
        (E.code save self args pers_save (direct_call_world E w)).st.nesting_level ∧
      (slp_safe_pickling E save self args pers_save w).st.cPickle_save =
        (E.code save self args pers_save (direct_call_world E w)).st.cPickle_save) := by
  rw [slp_safe_pickling_direct_eq E save self args pers_save w hroot]
  simp [direct_call_world, is_cframe_new, is_transfer, is_eval_frame]

/-- C7 at a concrete input: a top-level call with a callback that makes no
calls. -/
theorem C7_witness :
    (ex_world NULL 1).cstack_root = NULL ∧
    (slp_safe_pickling (ex_env ex_save_42 (TransferOutcome.fault (-1)) EvalOutcome.fault)
        5 6 7 0 (ex_world NULL 1)).tr.countP is_cframe_new = 0 ∧
    (slp_safe_pickling (ex_env ex_save_42 (TransferOutcome.fault (-1)) EvalOutcome.fault)
        5 6 7 0 (ex_world NULL 1)).tr.countP is_transfer = 0 ∧
    (slp_safe_pickling (ex_env ex_save_42 (TransferOutcome.fault (-1)) EvalOutcome.fault)
        5 6 7 0 (ex_world NULL 1)).tr.countP is_eval_frame = 0 ∧
    (slp_safe_pickling (ex_env ex_save_42 (TransferOutcome.fault (-1)) EvalOutcome.fault)
        5 6 7 0 (ex_world NULL 1)).st.frame = 10 :=
  have h := C7_direct_path_no_scheduling
    (ex_env ex_save_42 (TransferOutcome.fault (-1)) EvalOutcome.fault) 5 6 7 0
    (ex_world NULL 1) rfl
  ⟨rfl, h.1.1, h.1.2.1, h.1.2.2, h.2.2.1⟩

/-- C8: the path `slp_safe_pickling` takes is the case the specification selects;
it is the direct call iff `cstack_root` is null, `pickle_M` iff `cstack_root` is
non-null and `main` is null, and the record-and-transfer path iff both are
non-null. -/
theorem C8_case_selection (E : Env) (save self args : Ptr) (pers_save : Int) (w : World) :
    path_taken (slp_safe_pickling E save self args pers_save w).tr = some (spec_case w) ∧
    (path_taken (slp_safe_pickling E save self args pers_save w).tr = some Path.direct ↔
      w.cstack_root = NULL) ∧
    (path_taken (slp_safe_pickling E save self args pers_save w).tr = some Path.bootstrap ↔
      (w.cstack_root ≠ NULL ∧ w.main = NULL)) ∧
    (path_taken (slp_safe_pickling E save self args pers_save w).tr = some Path.transfer ↔
      (w.cstack_root ≠ NULL ∧ w.main ≠ NULL)) := by
  by_cases hroot : w.cstack_root = NULL
  · simp [slp_safe_pickling, hroot, path_taken, spec_case]
  · by_cases hmain : w.main = NULL
    · by_cases hcf : E.cframe_addr = NULL <;>
        simp [slp_safe_pickling, hroot, hmain, hcf, pickle_M, slp_cframe_new, path_taken,
          spec_case]
    · by_cases hcf : E.cframe_addr = NULL
      · simp [slp_safe_pickling, hroot, hmain, hcf, slp_cframe_new, path_taken, spec_case]
      · simp [slp_safe_pickling, hroot, hmain, hcf, slp_cframe_new, path_taken, spec_case,
          apply_ite Res.tr]

/-- C9: on whichever of the three paths the call takes, if it gets as far as
calling the callback and the callback returns -1, then `slp_safe_pickling`
returns -1 and has made exactly one call through a `save` pointer beyond those
the callback made itself; on the bootstrap path this uses that the box
round trip returns -1 for -1. -/
theorem C9_callback_failure_passed_through (E : Env) (save self args : Ptr)
    (pers_save : Int) (w : World)
    (hreach : reaches_callback E w = true)
    (hround : w.cstack_root ≠ NULL → w.main = NULL →
      E.slp_int_wrapper (E.PyInt_FromLong (-1)) = -1)
    (hfail : (E.code save self args pers_save
      (call_world E save self args pers_save w)).val = -1) :
    (slp_safe_pickling E save self args pers_save w).val = -1 ∧
    (slp_safe_pickling E save self args pers_save w).tr.countP is_save =
      (E.code save self args pers_save
        (call_world E save self args pers_save w)).tr.countP is_save + 1 ∧
    Event.save save self args pers_save ∈
      (slp_safe_pickling E save self args pers_save w).tr := by
  unfold reaches_callback at hreach
  unfold call_world at hfail ⊢
  by_cases hroot : w.cstack_root = NULL
  · simp only [hroot, if_true] at hfail ⊢
    rw [slp_safe_pickling_direct_eq E save self args pers_save w hroot]
    simp [hfail, is_save, List.countP_cons]
  · by_cases hcf : E.cframe_addr = NULL
    · simp [hroot, hcf] at hreach
    · by_cases hmain : w.main = NULL
      · cases he : E.eval_frame with
        | fault => simp [hroot, hcf, hmain, he] at hreach
        | run retval =>
          simp only [hroot, hmain, he, if_true, if_false] at hfail ⊢
          rw [slp_safe_pickling_bootstrap_eq E save self args pers_save w retval hroot hmain
            hcf he]
          simp [hfail, hround hroot hmain, is_save, List.countP_cons, List.countP_append]
      · cases ht : E.transfer with
        | fault status => simp [hroot, hcf, hmain, ht] at hreach
        | switch seg retval =>
          have hret : retval ≠ NULL := by simpa [hroot, hcf, hmain, ht] using hreach
          simp only [hroot, hmain, ht, if_false] at hfail ⊢
          rw [slp_safe_pickling_transfer_eq E save self args pers_save w seg retval hroot
            hmain hcf ht hret]
          simp [hfail, is_save, List.countP_cons, List.countP_append]

/-- C9 at a concrete input: a nested call whose callback returns -1. -/
theorem C9_witness :
    reaches_callback (ex_env ex_save_fail (TransferOutcome.switch 50 60) EvalOutcome.fault)
      (ex_world 100 1) = true ∧
    (slp_safe_pickling (ex_env ex_save_fail (TransferOutcome.switch 50 60) EvalOutcome.fault)
        5 6 7 0 (ex_world 100 1)).val = -1 ∧
    (slp_safe_pickling (ex_env ex_save_fail (TransferOutcome.switch 50 60) EvalOutcome.fault)
        5 6 7 0 (ex_world 100 1)).tr.countP is_save = 1 ∧
    Event.save 5 6 7 0 ∈
      (slp_safe_pickling (ex_env ex_save_fail (TransferOutcome.switch 50 60) EvalOutcome.fault)
        5 6 7 0 (ex_world 100 1)).tr :=
  ⟨rfl, C9_callback_failure_passed_through
    (ex_env ex_save_fail (TransferOutcome.switch 50 60) EvalOutcome.fault) 5 6 7 0
    (ex_world 100 1) rfl (fun _ _ => ex_env_round _ _ _ (-1)) rfl⟩

/-- C10: on the bootstrap path (`cstack_root` non-null, `main` null, the record
created, `slp_eval_frame` running it through `pickle_runmain`), with the
`PyInt_FromLong` / `slp_int_wrapper` round trip the identity, if
`save(self, args, pers_save)` returns `r` then `slp_safe_pickling` returns `r`,
and `cstack_root` on return equals its value on entry. -/
theorem C10_bootstrap_returns_callback_result (E : Env) (save self args : Ptr)
    (pers_save : Int) (w : World) (retval : Ptr) (r : Int)
    (hroot : w.cstack_root ≠ NULL) (hmain : w.main = NULL) (hcf : E.cframe_addr ≠ NULL)
    (he : E.eval_frame = EvalOutcome.run retval)
    (hround : ∀ v : Int, E.slp_int_wrapper (E.PyInt_FromLong v) = v)
    (hr : (E.code save self args pers_save
            (bootstrap_call_world E save self args pers_save retval w)).val = r) :
    (slp_safe_pickling E save self args pers_save w).val = r ∧
    (slp_safe_pickling E save self args pers_save w).st.cstack_root = w.cstack_root := by
  subst hr
  rw [slp_safe_pickling_bootstrap_eq E save self args pers_save w retval hroot hmain hcf he]
  exact ⟨hround _, rfl⟩

/-- C10 at a concrete input: a bootstrap call with a callback returning 42. -/
theorem C10_witness :
    ((ex_world 100 NULL).cstack_root ≠ NULL ∧ (ex_world 100 NULL).main = NULL) ∧
    (slp_safe_pickling (ex_env ex_save_42 (TransferOutcome.fault (-1)) (EvalOutcome.run 60))
        5 6 7 0 (ex_world 100 NULL)).val = 42 ∧
    (slp_safe_pickling (ex_env ex_save_42 (TransferOutcome.fault (-1)) (EvalOutcome.run 60))
        5 6 7 0 (ex_world 100 NULL)).st.cstack_root = 100 :=
  ⟨⟨by decide, rfl⟩, C10_bootstrap_returns_callback_result
    (ex_env ex_save_42 (TransferOutcome.fault (-1)) (EvalOutcome.run 60)) 5 6 7 0
    (ex_world 100 NULL) 60 42 (by decide) rfl (by decide) rfl (ex_env_round _ _ _) rfl⟩

/-- C16 (as amended): on the record-and-transfer path the callback is called
with `nesting_level` 1 whatever the entry value `n` was; so the value it observes
is at least `n` exactly when `n` is at most 1, and is below `n` when `n` is above
1. -/
theorem C16_observed_level_not_kept (E : Env) (save self args : Ptr) (pers_save : Int)
    (w : World) (seg retval : Ptr)
    (hroot : w.cstack_root ≠ NULL) (hmain : w.main ≠ NULL) (hcf : E.cframe_addr ≠ NULL)
    (ht : E.transfer = TransferOutcome.switch seg retval) (hret : retval ≠ NULL) :
    (slp_safe_pickling E save self args pers_save w).tr =
      [Event.slp_cframe_new ExecFunc.pickle_callback 1,
       Event.slp_transfer w.current NULL w.current,
       Event.save save self args pers_save] ++
      (E.code save self args pers_save
        (nested_call_world E save self args pers_save seg retval w)).tr ++
      [Event.slp_transfer_return seg] ∧
    (w.nesting_level ≤
        (nested_call_world E save self args pers_save seg retval w).nesting_level ↔
      w.nesting_level ≤ 1) ∧
    (1 < w.nesting_level →
      (nested_call_world E save self args pers_save seg retval w).nesting_level <
        w.nesting_level) := by
  have hcw : (nested_call_world E save self args pers_save seg retval w).nesting_level = 1 := by
    simp [nested_call_world, Py_DECREF, Py_INCREF, set_cstate]
  rw [slp_safe_pickling_transfer_eq E save self args pers_save w seg retval hroot hmain hcf ht
    hret, hcw]
  exact ⟨rfl, Iff.rfl, fun h => h⟩

/-- C16 (as amended) at a concrete input: entry level 0; the callback is called
with level 1, which is at least 0. -/
theorem C16_witness :
    ((ex_world 100 1).cstack_root ≠ NULL ∧ (ex_world 100 1).main ≠ NULL) ∧
    (ex_world 100 1).nesting_level ≤
      (nested_call_world (ex_env ex_save_42 (TransferOutcome.switch 50 60) EvalOutcome.fault)
        5 6 7 0 50 60 (ex_world 100 1)).nesting_level :=
  have h := C16_observed_level_not_kept
    (ex_env ex_save_42 (TransferOutcome.switch 50 60) EvalOutcome.fault) 5 6 7 0
    (ex_world 100 1) 50 60 (by decide) (by decide) (by decide) rfl (by decide)
  ⟨⟨by decide, by decide⟩, h.2.1.mpr (by decide)⟩

/-- C16 (counterexample): a nested call entered with `nesting_level` 5; the
callback is called with `nesting_level` 1, which is not at least 5. -/
theorem C16_counterexample :
    (ex_world_level 100 1 5).nesting_level = 5 ∧
    (slp_safe_pickling (ex_env ex_save_42 (TransferOutcome.switch 50 60) EvalOutcome.fault)
        5 6 7 0 (ex_world_level 100 1 5)).tr =
      [Event.slp_cframe_new ExecFunc.pickle_callback 1, Event.slp_transfer 20 NULL 20,
       Event.save 5 6 7 0] ++
      (ex_save_42 6 7 0
        (nested_call_world (ex_env ex_save_42 (TransferOutcome.switch 50 60) EvalOutcome.fault)
          5 6 7 0 50 60 (ex_world_level 100 1 5))).tr ++
      [Event.slp_transfer_return 50] ∧
    (nested_call_world (ex_env ex_save_42 (TransferOutcome.switch 50 60) EvalOutcome.fault)
        5 6 7 0 50 60 (ex_world_level 100 1 5)).nesting_level = 1 ∧
    ¬ ((ex_world_level 100 1 5).nesting_level ≤
        (nested_call_world (ex_env ex_save_42 (TransferOutcome.switch 50 60) EvalOutcome.fault)
          5 6 7 0 50 60 (ex_world_level 100 1 5)).nesting_level) := by
  refine ⟨rfl, ?_, ?_, ?_⟩ <;> decide

/-- C17 (as amended): on the record-and-transfer path the callback is called
with `nesting_level` equal to 1 for every entry value `n`; that is `n + 1` exactly
when `n` is 0. -/
theorem C17_callback_sees_level_one (E : Env) (save self args : Ptr) (pers_save : Int)
    (w : World) (seg retval : Ptr)
    (hroot : w.cstack_root ≠ NULL) (hmain : w.main ≠ NULL) (hcf : E.cframe_addr ≠ NULL)
    (ht : E.transfer = TransferOutcome.switch seg retval) (hret : retval ≠ NULL) :
    (slp_safe_pickling E save self args pers_save w).tr =
      [Event.slp_cframe_new ExecFunc.pickle_callback 1,
       Event.slp_transfer w.current NULL w.current,
       Event.save save self args pers_save] ++
      (E.code save self args pers_save
        (nested_call_world E save self args pers_save seg retval w)).tr ++
      [Event.slp_transfer_return seg] ∧
    (nested_call_world E save self args pers_save seg retval w).nesting_level = 1 ∧
    ((nested_call_world E save self args pers_save seg retval w).nesting_level =
        w.nesting_level + 1 ↔ w.nesting_level = 0) := by
  have hcw : (nested_call_world E save self args pers_save seg retval w).nesting_level = 1 := by
    simp [nested_call_world, Py_DECREF, Py_INCREF, set_cstate]
  rw [slp_safe_pickling_transfer_eq E save self args pers_save w seg retval hroot hmain hcf ht
    hret, hcw]
  refine ⟨rfl, rfl, ?_⟩
  constructor <;> intro h <;> omega

/-- C17 (as amended) at a concrete input: entry level 5, the callback is called
with level 1. -/
theorem C17_witness :
    ((ex_world_level 100 1 5).cstack_root ≠ NULL ∧ (ex_world_level 100 1 5).main ≠ NULL) ∧
    (nested_call_world (ex_env ex_save_42 (TransferOutcome.switch 50 60) EvalOutcome.fault)
        5 6 7 0 50 60 (ex_world_level 100 1 5)).nesting_level = 1 :=
  ⟨⟨by decide, by decide⟩,
   (C17_callback_sees_level_one
      (ex_env ex_save_42 (TransferOutcome.switch 50 60) EvalOutcome.fault) 5 6 7 0
      (ex_world_level 100 1 5) 50 60 (by decide) (by decide) (by decide) rfl
      (by decide)).2.1⟩

/-- C17 (counterexample): a nested call entered with `nesting_level` 5; the
callback is called with `nesting_level` 1, not 6. -/
theorem C17_counterexample :
    (ex_world_level 100 1 5).nesting_level = 5 ∧
    (slp_safe_pickling (ex_env ex_save_42 (TransferOutcome.switch 50 60) EvalOutcome.fault)
        5 6 7 0 (ex_world_level 100 1 5)).val =
      (ex_save_42 6 7 0
        (nested_call_world (ex_env ex_save_42 (TransferOutcome.switch 50 60) EvalOutcome.fault)
          5 6 7 0 50 60 (ex_world_level 100 1 5))).val ∧
    ¬ ((nested_call_world (ex_env ex_save_42 (TransferOutcome.switch 50 60) EvalOutcome.fault)
          5 6 7 0 50 60 (ex_world_level 100 1 5)).nesting_level =
        (ex_world_level 100 1 5).nesting_level + 1) := by
  refine ⟨rfl, rfl, ?_⟩
  decide

/-- C12: for a pure callback, on the direct path and on the record-and-transfer
path (record created and linked to the current frame, transfer completing), a
second call of `slp_safe_pickling` with the same arguments returns the value the
first returned and leaves the thread-local state (boundary marker, `cur->cstate`,
`nesting_level`, `ts->frame`, stored callback) as the first call left it. -/
theorem C12_idempotent (E1 E2 : Env) (save self args : Ptr) (pers_save : Int) (w : World)
    (hcode : E2.code save = E1.code save) (hpure : is_pure (E1.code save))
    (h1 : direct_or_nested E1 w) (h2 : direct_or_nested E2 w) :
    (slp_safe_pickling E2 save self args pers_save
        (slp_safe_pickling E1 save self args pers_save w).st).val =
      (slp_safe_pickling E1 save self args pers_save w).val ∧
    thread_local (slp_safe_pickling E2 save self args pers_save
        (slp_safe_pickling E1 save self args pers_save w).st).st =
      thread_local (slp_safe_pickling E1 save self args pers_save w).st := by
  have hst : ∀ x : World, (E1.code save self args pers_save x).st = x :=
    fun x => (hpure self args pers_save x x).1
  have hval : ∀ x y : World, (E1.code save self args pers_save x).val =
      (E1.code save self args pers_save y).val :=
    fun x y => (hpure self args pers_save x y).2
  rcases h1 with hroot | ⟨hroot, hmain, hcf1, hlink1, seg1, retval1, hret1, ht1⟩
  · rcases h2 with _ | ⟨hroot2, _⟩
    · rw [slp_safe_pickling_direct_eq E1 save self args pers_save w hroot]
      rw [slp_safe_pickling_direct_eq E2 save self args pers_save _ rfl]
      rw [hcode]
      refine ⟨hval _ _, ?_⟩
      simp [thread_local, hst, direct_call_world]
    · exact absurd hroot hroot2
  · rcases h2 with hroot2 | ⟨_, _, hcf2, hlink2, seg2, retval2, hret2, ht2⟩
    · exact absurd hroot2 hroot
    · rw [slp_safe_pickling_transfer_eq E1 save self args pers_save w seg1 retval1 hroot hmain
        hcf1 ht1 hret1]
      have hr1 : (nested_return_world E1 seg1 w
          (E1.code save self args pers_save
            (nested_call_world E1 save self args pers_save seg1 retval1 w))).cstack_root ≠
          NULL := by
        simpa [nested_return_world, Py_XDECREF_eq, Py_DECREF, set_cstate, set_i] using hroot
      have hm1 : (nested_return_world E1 seg1 w
          (E1.code save self args pers_save
            (nested_call_world E1 save self args pers_save seg1 retval1 w))).main ≠ NULL := by
        simpa [nested_return_world, Py_XDECREF_eq, Py_DECREF, set_cstate, set_i, hst,
          nested_call_world, transfer_world, slp_cframe_new, hcf1, Py_INCREF, Py_XINCREF_eq]
          using hmain
      rw [slp_safe_pickling_transfer_eq E2 save self args pers_save _ seg2 retval2 hr1 hm1
        hcf2 ht2 hret2]
      rw [hcode]
      refine ⟨hval _ _, ?_⟩
      simp [thread_local, hst, nested_return_world, nested_call_world, transfer_world,
        slp_cframe_new, hcf1, hcf2, Py_XDECREF_eq, Py_XINCREF_eq, Py_DECREF, Py_INCREF,
        set_cstate, set_i, hlink1, hlink2]

/-- C12 at a concrete input: two nested calls in sequence with a callback that
returns 42 and changes nothing. -/
theorem C12_witness :
    is_pure ex_save_42 ∧
    (slp_safe_pickling (ex_env ex_save_42 (TransferOutcome.switch 50 60) EvalOutcome.fault)
        5 6 7 0
        (slp_safe_pickling (ex_env ex_save_42 (TransferOutcome.switch 50 60) EvalOutcome.fault)
          5 6 7 0 (ex_world 100 1)).st).val = 42 ∧
    thread_local
      (slp_safe_pickling (ex_env ex_save_42 (TransferOutcome.switch 50 60) EvalOutcome.fault)
        5 6 7 0
        (slp_safe_pickling (ex_env ex_save_42 (TransferOutcome.switch 50 60) EvalOutcome.fault)
          5 6 7 0 (ex_world 100 1)).st).st =
      thread_local
        (slp_safe_pickling (ex_env ex_save_42 (TransferOutcome.switch 50 60) EvalOutcome.fault)
          5 6 7 0 (ex_world 100 1)).st :=
  have hp : is_pure ex_save_42 := fun _ _ _ _ _ => ⟨rfl, rfl⟩
  have hn : direct_or_nested
      (ex_env ex_save_42 (TransferOutcome.switch 50 60) EvalOutcome.fault) (ex_world 100 1) :=
    Or.inr ⟨by decide, by decide, by decide, rfl, 50, 60, by decide, rfl⟩
  ⟨hp, C12_idempotent
    (ex_env ex_save_42 (TransferOutcome.switch 50 60) EvalOutcome.fault)
    (ex_env ex_save_42 (TransferOutcome.switch 50 60) EvalOutcome.fault) 5 6 7 0
    (ex_world 100 1) rfl hp hn hn⟩

/-- C13: on the two indirect paths, when the call gets as far as the callback,
the one call it makes through a `save` pointer is `save(self, args, pers_save)`
with the arguments it was given; on the record-and-transfer path they are read
from the record (`ob1`, `ob2`, `n`) and on the bootstrap path from the statics
`_self`, `_args`, `_pers_save`, which hold exactly those values when the callback
is called, and `cPickle_save` holds `save`. -/
theorem C13_arguments_pass_through (E : Env) (save self args : Ptr) (pers_save : Int)
    (w : World) (hroot : w.cstack_root ≠ NULL) (hreach : reaches_callback E w = true) :
    (∃ own_before own_after : List Event,
      (slp_safe_pickling E save self args pers_save w).tr =
        own_before ++ Event.save save self args pers_save ::
          (E.code save self args pers_save (call_world E save self args pers_save w)).tr ++
          own_after ∧
      own_before.countP is_save = 0 ∧ own_after.countP is_save = 0) ∧
    (call_world E save self args pers_save w).cPickle_save = save ∧
    (w.main ≠ NULL →
      ((call_world E save self args pers_save w).cframe E.cframe_addr).ob1 = self ∧
      ((call_world E save self args pers_save w).cframe E.cframe_addr).ob2 = args ∧
      ((call_world E save self args pers_save w).cframe E.cframe_addr).n = pers_save) ∧
    (w.main = NULL →
      (call_world E save self args pers_save w)._self = self ∧
      (call_world E save self args pers_save w)._args = args ∧
      (call_world E save self args pers_save w)._pers_save = pers_save) := by
  unfold reaches_callback at hreach
  unfold call_world
  by_cases hcf : E.cframe_addr = NULL
  · simp [hroot, hcf] at hreach
  · by_cases hmain : w.main = NULL
    · cases he : E.eval_frame with
      | fault => simp [hroot, hcf, hmain, he] at hreach
      | run retval =>
        simp only [hroot, hmain, he, if_true, if_false]
        rw [slp_safe_pickling_bootstrap_eq E save self args pers_save w retval hroot hmain
          hcf he]
        refine ⟨⟨[Event.slp_cframe_new ExecFunc.pickle_runmain 0,
          Event.slp_eval_frame E.cframe_addr], [], ?_, ?_, ?_⟩, ?_, ?_, ?_⟩
        · simp
        · simp [is_cframe_new, is_save]
        · simp
        · simp [bootstrap_call_world, slp_cframe_new, hcf, Py_XDECREF_eq, Py_DECREF]
        · intro h
          exact absurd rfl h
        · intro _
          simp [bootstrap_call_world, slp_cframe_new, hcf, Py_XDECREF_eq, Py_DECREF]
    · cases ht : E.transfer with
      | fault status => simp [hroot, hcf, hmain, ht] at hreach
      | switch seg retval =>
        have hret : retval ≠ NULL := by simpa [hroot, hcf, hmain, ht] using hreach
        simp only [hroot, hmain, ht, if_false]
        rw [slp_safe_pickling_transfer_eq E save self args pers_save w seg retval hroot
          hmain hcf ht hret]
        refine ⟨⟨[Event.slp_cframe_new ExecFunc.pickle_callback 1,
          Event.slp_transfer w.current NULL w.current],
          [Event.slp_transfer_return seg], ?_, ?_, ?_⟩, ?_, ?_, ?_⟩
        · simp
        · simp [is_save]
        · simp [is_save]
        · simp [nested_call_world, transfer_world, slp_cframe_new, hcf, Py_XINCREF_eq,
            Py_DECREF, Py_INCREF, set_cstate]
        · intro _
          simp [nested_call_world, transfer_world, slp_cframe_new, hcf, Py_XINCREF_eq,
            Py_DECREF, Py_INCREF, set_cstate]
        · intro h
          exact h.elim

/-- C13 at a concrete input: a nested call; the record holds 6, 7 and 0 when the
callback is called. -/
theorem C13_witness :
    ((ex_world 100 1).cstack_root ≠ NULL ∧
      reaches_callback (ex_env ex_save_42 (TransferOutcome.switch 50 60) EvalOutcome.fault)
        (ex_world 100 1) = true) ∧
    ((call_world (ex_env ex_save_42 (TransferOutcome.switch 50 60) EvalOutcome.fault)
        5 6 7 0 (ex_world 100 1)).cframe 500).ob1 = 6 ∧
    ((call_world (ex_env ex_save_42 (TransferOutcome.switch 50 60) EvalOutcome.fault)
        5 6 7 0 (ex_world 100 1)).cframe 500).ob2 = 7 ∧
    ((call_world (ex_env ex_save_42 (TransferOutcome.switch 50 60) EvalOutcome.fault)
        5 6 7 0 (ex_world 100 1)).cframe 500).n = 0 :=
  ⟨⟨by decide, rfl⟩,
   (C13_arguments_pass_through
      (ex_env ex_save_42 (TransferOutcome.switch 50 60) EvalOutcome.fault) 5 6 7 0
      (ex_world 100 1) (by decide) rfl).2.2.1 (by decide)⟩

/-- C18: when `pickle_callback` runs the callback (non-null `retval`), the
callback is called with the current tasklet's `cstate` equal to
`ts->st.initial_stub`, whose count is one above what the release of `retval`
alone would leave (so one above its count on entry when `retval` is another
object); the segment found in `cur->cstate` on entry is the one passed to
`slp_transfer_return` and is back in `cur->cstate` afterwards. -/
theorem C18_baseline_segment_during_callback (E : Env) (f : Ptr) (exc : Int) (retval : Ptr)
    (w : World) (hret : retval ≠ NULL) :
    (pickle_callback E f exc retval w).tr =
      Event.save (callback_call_world E retval w).cPickle_save
          ((callback_call_world E retval w).cframe f).ob1
          ((callback_call_world E retval w).cframe f).ob2
          ((callback_call_world E retval w).cframe f).n ::
        (E.code (callback_call_world E retval w).cPickle_save
          ((callback_call_world E retval w).cframe f).ob1
          ((callback_call_world E retval w).cframe f).ob2
          ((callback_call_world E retval w).cframe f).n
          (callback_call_world E retval w)).tr ++
        [Event.slp_transfer_return (w.cstate w.current)] ∧
    (callback_call_world E retval w).cstate w.current = w.initial_stub ∧
    (callback_call_world E retval w).ob_refcnt w.initial_stub =
      (Py_DECREF retval w).ob_refcnt w.initial_stub + 1 ∧
    (retval ≠ w.initial_stub →
      (callback_call_world E retval w).ob_refcnt w.initial_stub =
        w.ob_refcnt w.initial_stub + 1) ∧
    (pickle_callback E f exc retval w).st.cstate w.current = w.cstate w.current := by
  refine ⟨?_, ?_, ?_, ?_, ?_⟩
  · simp [pickle_callback, hret, callback_call_world, Py_INCREF, Py_DECREF, set_cstate]
  · simp [callback_call_world, Py_INCREF, Py_DECREF, set_cstate]
  · by_cases h : w.initial_stub = retval
    · simp [callback_call_world, Py_INCREF, Py_DECREF, set_cstate, h]
    · simp [callback_call_world, Py_INCREF, Py_DECREF, set_cstate, upd_other _ _ _ _ h]
  · intro h
    simp [callback_call_world, Py_INCREF, Py_DECREF, set_cstate,
      upd_other _ _ _ _ (Ne.symm h)]
  · simp [pickle_callback, Py_INCREF, Py_DECREF, set_cstate, set_i]

/-- C18 at a concrete input: `pickle_callback` entered on segment 50 with
baseline segment 30 of count 1; the callback sees `cstate` 30 with count 2, and
`cstate` is 50 again afterwards. -/
theorem C18_witness :
    (callback_call_world (ex_env ex_save_42 (TransferOutcome.switch 50 60) EvalOutcome.fault)
        60 (set_cstate 20 50 (ex_world 100 1))).cstate 20 = 30 ∧
    (callback_call_world (ex_env ex_save_42 (TransferOutcome.switch 50 60) EvalOutcome.fault)
        60 (set_cstate 20 50 (ex_world 100 1))).ob_refcnt 30 = 1 + 1 ∧
    (pickle_callback (ex_env ex_save_42 (TransferOutcome.switch 50 60) EvalOutcome.fault)
        500 0 60 (set_cstate 20 50 (ex_world 100 1))).st.cstate 20 = 50 :=
  have h := C18_baseline_segment_during_callback
    (ex_env ex_save_42 (TransferOutcome.switch 50 60) EvalOutcome.fault) 500 0 60
    (set_cstate 20 50 (ex_world 100 1)) (by decide)
  ⟨h.2.1, h.2.2.2.1 (by decide), h.2.2.2.2⟩

/-- C19: on the record-and-transfer path the callback is called with
`cstack_root` equal to `STACK_REFPLUS + (intptr_t *) &f`, for the parameter `f` of
`pickle_callback`; if the marker on entry to `slp_safe_pickling` is
`STACK_REFPLUS` plus another stack address, the marker the callback sees differs
from it. -/
theorem C19_fresh_marker_in_nested_case (E : Env) (save self args : Ptr) (pers_save : Int)
    (w : World) (seg retval : Ptr)
    (hroot : w.cstack_root ≠ NULL) (hmain : w.main ≠ NULL) (hcf : E.cframe_addr ≠ NULL)
    (ht : E.transfer = TransferOutcome.switch seg retval) (hret : retval ≠ NULL) :
    (slp_safe_pickling E save self args pers_save w).val =
      (E.code save self args pers_save
        (nested_call_world E save self args pers_save seg retval w)).val ∧
    (nested_call_world E save self args pers_save seg retval w).cstack_root =
      stack_ref E E.addr_f ∧
    (∀ a : Ptr, w.cstack_root = stack_ref E a → a ≠ E.addr_f →
      (nested_call_world E save self args pers_save seg retval w).cstack_root ≠
        w.cstack_root) := by
  have hcw : (nested_call_world E save self args pers_save seg retval w).cstack_root =
      stack_ref E E.addr_f := by
    simp [nested_call_world, Py_DECREF, Py_INCREF, set_cstate]
  rw [slp_safe_pickling_transfer_eq E save self args pers_save w seg retval hroot hmain hcf ht
    hret, hcw]
  refine ⟨rfl, rfl, ?_⟩
  intro a ha hne heq
  rw [ha] at heq
  unfold stack_ref at heq
  exact hne (Nat.add_right_cancel heq).symm

/-- C19 at a concrete input: a nested call made under the marker of a top-level
call (`&save` at 4096); the callback sees the marker of `&f` at 8192. -/
theorem C19_witness :
    ((ex_world 4104 1).cstack_root ≠ NULL ∧ (ex_world 4104 1).main ≠ NULL) ∧
    (nested_call_world (ex_env ex_save_42 (TransferOutcome.switch 50 60) EvalOutcome.fault)
        5 6 7 0 50 60 (ex_world 4104 1)).cstack_root = 8200 ∧
    (nested_call_world (ex_env ex_save_42 (TransferOutcome.switch 50 60) EvalOutcome.fault)
        5 6 7 0 50 60 (ex_world 4104 1)).cstack_root ≠ (ex_world 4104 1).cstack_root :=
  have h := C19_fresh_marker_in_nested_case
    (ex_env ex_save_42 (TransferOutcome.switch 50 60) EvalOutcome.fault) 5 6 7 0
    (ex_world 4104 1) 50 60 (by decide) (by decide) (by decide) rfl (by decide)
  ⟨⟨by decide, by decide⟩, h.2.1, h.2.2 4096 rfl (by decide)⟩

/-- C20: on the direct path, with `STACK_REFPLUS + (intptr_t *) &save` non-null,
the callback is called with `cstack_root` non-null; and any call of
`slp_safe_pickling` made while `cstack_root` has that value takes the
record-and-transfer path when `ts->st.main` is set and the bootstrap path
otherwise, never the direct path. -/
theorem C20_boundary_active_in_direct_callback (E : Env) (save self args : Ptr)
    (pers_save : Int) (w : World) (hroot : w.cstack_root = NULL)
    (hmark : stack_ref E E.addr_save ≠ NULL) :
    (slp_safe_pickling E save self args pers_save w).tr =
      Event.save save self args pers_save ::
        (E.code save self args pers_save (direct_call_world E w)).tr ∧
    (direct_call_world E w).cstack_root ≠ NULL ∧
    (∀ (E2 : Env) (save2 self2 args2 : Ptr) (pers_save2 : Int) (w2 : World),
      w2.cstack_root = (direct_call_world E w).cstack_root →
      path_taken (slp_safe_pickling E2 save2 self2 args2 pers_save2 w2).tr ≠
        some Path.direct ∧
      path_taken (slp_safe_pickling E2 save2 self2 args2 pers_save2 w2).tr =
        some (if w2.main = NULL then Path.bootstrap else Path.transfer)) := by
  rw [slp_safe_pickling_direct_eq E save self args pers_save w hroot]
  refine ⟨rfl, hmark, ?_⟩
  intro E2 save2 self2 args2 pers_save2 w2 h2
  have hr2 : w2.cstack_root ≠ NULL := by
    rw [h2]
    exact hmark
  rw [slp_safe_pickling_path]
  by_cases hm : w2.main = NULL <;> simp [spec_case, hr2, hm]

/-- C20 at a concrete input: a top-level call whose callback calls
`slp_safe_pickling` again at once; the inner call takes the record-and-transfer
path. -/
theorem C20_witness :
    ((ex_world NULL 1).cstack_root = NULL ∧
      stack_ref (ex_env ex_save_42 (TransferOutcome.switch 50 60) EvalOutcome.fault)
        (ex_env ex_save_42 (TransferOutcome.switch 50 60) EvalOutcome.fault).addr_save ≠
        NULL) ∧
    path_taken
      (slp_safe_pickling (ex_env ex_save_42 (TransferOutcome.switch 50 60) EvalOutcome.fault)
        5 6 7 0
        (direct_call_world
          (ex_env ex_save_42 (TransferOutcome.switch 50 60) EvalOutcome.fault)
          (ex_world NULL 1))).tr = some Path.transfer :=
  ⟨⟨rfl, by decide⟩,
   ((C20_boundary_active_in_direct_callback
      (ex_env ex_save_42 (TransferOutcome.switch 50 60) EvalOutcome.fault) 5 6 7 0
      (ex_world NULL 1) rfl (by decide)).2.2
      (ex_env ex_save_42 (TransferOutcome.switch 50 60) EvalOutcome.fault) 5 6 7 0
      (direct_call_world
        (ex_env ex_save_42 (TransferOutcome.switch 50 60) EvalOutcome.fault)
        (ex_world NULL 1)) rfl).2⟩

/-- Bootstrap path, record creation failed: the whole call in one equation. -/
theorem slp_safe_pickling_bootstrap_norecord_eq (E : Env) (save self args : Ptr)
    (pers_save : Int) (w : World) (hroot : w.cstack_root ≠ NULL) (hmain : w.main = NULL)
    (hcf : E.cframe_addr = NULL) :
    slp_safe_pickling E save self args pers_save w =
      ⟨-1, { w with cPickle_save := save },
       [Event.slp_cframe_new ExecFunc.pickle_runmain 0]⟩ := by
  simp [slp_safe_pickling, hroot, hmain, hcf, pickle_M, slp_cframe_new]

/-- C21: if `slp_cframe_new` returns `NULL` on either indirect path,
`slp_safe_pickling` returns -1; its only call is that `slp_cframe_new` (no
callback, no transfer, no frame evaluation); and `cstack_root`, every `cstate`,
`ts->frame` and every reference count, those of `self` and `args` among them, are
as on entry. -/
theorem C21_record_allocation_failure (E : Env) (save self args : Ptr) (pers_save : Int)
    (w : World) (hroot : w.cstack_root ≠ NULL) (hcf : E.cframe_addr = NULL) :
    (slp_safe_pickling E save self args pers_save w).val = -1 ∧
    (slp_safe_pickling E save self args pers_save w).tr =
      [if w.main = NULL then Event.slp_cframe_new ExecFunc.pickle_runmain 0
       else Event.slp_cframe_new ExecFunc.pickle_callback 1] ∧
    ((slp_safe_pickling E save self args pers_save w).tr.countP is_save = 0 ∧
      (slp_safe_pickling E save self args pers_save w).tr.countP is_transfer = 0 ∧
      (slp_safe_pickling E save self args pers_save w).tr.countP is_eval_frame = 0) ∧
    (slp_safe_pickling E save self args pers_save w).st.cstack_root = w.cstack_root ∧
    (slp_safe_pickling E save self args pers_save w).st.cstate = w.cstate ∧
    (slp_safe_pickling E save self args pers_save w).st.frame = w.frame ∧
    (slp_safe_pickling E save self args pers_save w).st.ob_refcnt = w.ob_refcnt := by
  by_cases hmain : w.main = NULL
  · rw [slp_safe_pickling_bootstrap_norecord_eq E save self args pers_save w hroot hmain hcf]
    simp [hmain, is_save, is_transfer, is_eval_frame]
  · rw [slp_safe_pickling_norecord_eq E save self args pers_save w hroot hmain hcf]
    simp [hmain, is_save, is_transfer, is_eval_frame]

/-- C21 at a concrete input: the nested and the bootstrap path with record
creation failing. -/
theorem C21_witness :
    ((ex_world 100 1).cstack_root ≠ NULL ∧
      ({ ex_env ex_save_42 (TransferOutcome.switch 50 60) (EvalOutcome.run 60) with
          cframe_addr := NULL } : Env).cframe_addr = NULL) ∧
    (slp_safe_pickling
        { ex_env ex_save_42 (TransferOutcome.switch 50 60) (EvalOutcome.run 60) with
          cframe_addr := NULL } 5 6 7 0 (ex_world 100 1)).val = -1 ∧
    (slp_safe_pickling
        { ex_env ex_save_42 (TransferOutcome.switch 50 60) (EvalOutcome.run 60) with
          cframe_addr := NULL } 5 6 7 0 (ex_world 100 NULL)).val = -1 :=
  ⟨⟨by decide, rfl⟩,
   (C21_record_allocation_failure
      { ex_env ex_save_42 (TransferOutcome.switch 50 60) (EvalOutcome.run 60) with
        cframe_addr := NULL } 5 6 7 0 (ex_world 100 1) (by decide) rfl).1,
   (C21_record_allocation_failure
      { ex_env ex_save_42 (TransferOutcome.switch 50 60) (EvalOutcome.run 60) with
        cframe_addr := NULL } 5 6 7 0 (ex_world 100 NULL) (by decide) rfl).1⟩

/-- C25: when the transfer resumes `pickle_callback` with a null `retval`, the
callback is not called (the calls are the record creation, the transfer and the
transfer back), the record's result slot `cf->i` holds -1, `cstack_root` and
`cur->cstate` are as on entry, and `slp_safe_pickling` returns -1. -/
theorem C25_failed_resume (E : Env) (save self args : Ptr) (pers_save : Int)
    (w : World) (seg : Ptr)
    (hroot : w.cstack_root ≠ NULL) (hmain : w.main ≠ NULL) (hcf : E.cframe_addr ≠ NULL)
    (ht : E.transfer = TransferOutcome.switch seg NULL) :
    (slp_safe_pickling E save self args pers_save w).val = -1 ∧
    (slp_safe_pickling E save self args pers_save w).tr =
      [Event.slp_cframe_new ExecFunc.pickle_callback 1,
       Event.slp_transfer w.current NULL w.current,
       Event.slp_transfer_return seg] ∧
    (slp_safe_pickling E save self args pers_save w).tr.countP is_save = 0 ∧
    ((slp_safe_pickling E save self args pers_save w).st.cframe E.cframe_addr).i = -1 ∧
    (slp_safe_pickling E save self args pers_save w).st.cstack_root = w.cstack_root ∧
    (slp_safe_pickling E save self args pers_save w).st.cstate w.current =
      w.cstate w.current := by
  rw [slp_safe_pickling_transfer_null_eq E save self args pers_save w seg hroot hmain hcf ht]
  simp [is_save, nested_null_return_world, resume_world, transfer_world, slp_cframe_new, hcf,
    Py_XDECREF_eq, Py_XINCREF_eq, Py_DECREF, Py_INCREF, set_cstate, set_i]

/-- C25 at a concrete input: a nested call resumed with a null `retval`. -/
theorem C25_witness :
    ((ex_world 100 1).cstack_root ≠ NULL ∧ (ex_world 100 1).main ≠ NULL) ∧
    (slp_safe_pickling (ex_env ex_save_42 (TransferOutcome.switch 50 NULL) EvalOutcome.fault)
        5 6 7 0 (ex_world 100 1)).val = -1 ∧
    (slp_safe_pickling (ex_env ex_save_42 (TransferOutcome.switch 50 NULL) EvalOutcome.fault)
        5 6 7 0 (ex_world 100 1)).tr.countP is_save = 0 :=
  have h := C25_failed_resume
    (ex_env ex_save_42 (TransferOutcome.switch 50 NULL) EvalOutcome.fault) 5 6 7 0
    (ex_world 100 1) 50 (by decide) (by decide) (by decide) rfl
  ⟨⟨by decide, by decide⟩, h.1, h.2.2.1⟩

/-- C23: every execution of `pickle_callback` ends with a call
`slp_transfer_return(cst)`, `cst` being the segment found in `cur->cstate` on
entry, and makes no other call of its own besides the one callback call when
`retval` is non-null; in the world at that call `cur->cstate` is `cst` again,
`cstack_root` has its entry value and `ts->frame` is the record's `f_back`.
Nothing follows `slp_transfer_return`, which does not return. -/
theorem C23_transfers_are_paired (E : Env) (f : Ptr) (exc : Int) (retval : Ptr) (w : World) :
    (∃ inner : List Event,
      (pickle_callback E f exc retval w).tr =
        inner ++ [Event.slp_transfer_return (w.cstate w.current)] ∧
      (retval = NULL → inner = []) ∧
      (retval ≠ NULL →
        inner =
          Event.save (callback_call_world E retval w).cPickle_save
              ((callback_call_world E retval w).cframe f).ob1
              ((callback_call_world E retval w).cframe f).ob2
              ((callback_call_world E retval w).cframe f).n ::
            (E.code (callback_call_world E retval w).cPickle_save
              ((callback_call_world E retval w).cframe f).ob1
              ((callback_call_world E retval w).cframe f).ob2
              ((callback_call_world E retval w).cframe f).n
              (callback_call_world E retval w)).tr)) ∧
    (pickle_callback E f exc retval w).tr.getLast? =
      some (Event.slp_transfer_return (w.cstate w.current)) ∧
    (pickle_callback E f exc retval w).st.cstate w.current = w.cstate w.current ∧
    (pickle_callback E f exc retval w).st.cstack_root = w.cstack_root ∧
    (pickle_callback E f exc retval w).st.frame =
      ((pickle_callback E f exc retval w).st.cframe f).f_back := by
  refine ⟨?_, ?_, ?_, ?_, ?_⟩
  · by_cases hret : retval = NULL
    · refine ⟨[], ?_, fun _ => rfl, fun h => absurd hret h⟩
      simp [pickle_callback, hret]
    · refine ⟨_, ?_, fun h => absurd h hret, fun _ => rfl⟩
      simp [pickle_callback, hret, callback_call_world, Py_INCREF, Py_DECREF, set_cstate]
  · simp [pickle_callback]
  · simp [pickle_callback, Py_INCREF, Py_DECREF, set_cstate, set_i]
  · simp [pickle_callback, Py_INCREF, Py_DECREF, set_cstate, set_i]
  · simp [pickle_callback, Py_INCREF, Py_DECREF, set_cstate, set_i]

/-- C26: on the indirect paths the outcome of a call does not depend on what
`cPickle_save` held on entry: the static is written with the call's own `save`
before it is read, the callback is called with the static holding `save`, and
the value returned comes from the function `save` designates.  On the direct
path the static is not written: the callback receives it as it was on entry and
the call returns it as the callback left it. -/
theorem C26_each_call_runs_its_own_callback (E : Env) (save self args : Ptr)
    (pers_save : Int) (w : World) (stale : Ptr)
    (hroot : w.cstack_root ≠ NULL) (hreach : reaches_callback E w = true)
    (hround : w.main = NULL → ∀ v : Int, E.slp_int_wrapper (E.PyInt_FromLong v) = v) :
    slp_safe_pickling E save self args pers_save { w with cPickle_save := stale } =
      slp_safe_pickling E save self args pers_save w ∧
    (call_world E save self args pers_save w).cPickle_save = save ∧
    (slp_safe_pickling E save self args pers_save w).val =
      (E.code save self args pers_save (call_world E save self args pers_save w)).val ∧
    Event.save save self args pers_save ∈
      (slp_safe_pickling E save self args pers_save w).tr ∧
    (∀ w0 : World, w0.cstack_root = NULL →
      (direct_call_world E w0).cPickle_save = w0.cPickle_save ∧
      (slp_safe_pickling E save self args pers_save w0).st.cPickle_save =
        (E.code save self args pers_save (direct_call_world E w0)).st.cPickle_save) := by
  refine ⟨?_, ?_, ?_, ?_, ?_⟩
  · simp [slp_safe_pickling, hroot]
  all_goals unfold reaches_callback at hreach
  all_goals try unfold call_world
  · by_cases hcf : E.cframe_addr = NULL
    · simp [hroot, hcf] at hreach
    · by_cases hmain : w.main = NULL
      · cases he : E.eval_frame with
        | fault => simp [hroot, hcf, hmain, he] at hreach
        | run retval =>
          simp [hroot, hmain, he, bootstrap_call_world, slp_cframe_new, hcf, Py_XDECREF_eq,
            Py_DECREF]
      · cases ht : E.transfer with
        | fault status => simp [hroot, hcf, hmain, ht] at hreach
        | switch seg retval =>
          simp [hroot, hmain, ht, nested_call_world, transfer_world, slp_cframe_new, hcf,
            Py_XINCREF_eq, Py_DECREF, Py_INCREF, set_cstate]
  · by_cases hcf : E.cframe_addr = NULL
    · simp [hroot, hcf] at hreach
    · by_cases hmain : w.main = NULL
      · cases he : E.eval_frame with
        | fault => simp [hroot, hcf, hmain, he] at hreach
        | run retval =>
          simp only [hroot, hmain, he, if_true, if_false]
          rw [slp_safe_pickling_bootstrap_eq E save self args pers_save w retval hroot hmain
            hcf he]
          exact hround hmain _
      · cases ht : E.transfer with
        | fault status => simp [hroot, hcf, hmain, ht] at hreach
        | switch seg retval =>
          have hret : retval ≠ NULL := by simpa [hroot, hcf, hmain, ht] using hreach
          simp only [hroot, hmain, ht, if_false]
          rw [slp_safe_pickling_transfer_eq E save self args pers_save w seg retval hroot
            hmain hcf ht hret]
  · by_cases hcf : E.cframe_addr = NULL
    · simp [hroot, hcf] at hreach
    · by_cases hmain : w.main = NULL
      · cases he : E.eval_frame with
        | fault => simp [hroot, hcf, hmain, he] at hreach
        | run retval =>
          rw [slp_safe_pickling_bootstrap_eq E save self args pers_save w retval hroot hmain
            hcf he]
          simp
      · cases ht : E.transfer with
        | fault status => simp [hroot, hcf, hmain, ht] at hreach
        | switch seg retval =>
          have hret : retval ≠ NULL := by simpa [hroot, hcf, hmain, ht] using hreach
          rw [slp_safe_pickling_transfer_eq E save self args pers_save w seg retval hroot
            hmain hcf ht hret]
          simp
  · intro w0 h0
    rw [slp_safe_pickling_direct_eq E save self args pers_save w0 h0]
    simp [direct_call_world]

/-- C26 at a concrete input: a nested call with pointer 5 whose callback makes a
nested call with pointer 8, entered with a stale pointer 99 in `cPickle_save`;
the outer call calls pointer 5, and the static holds 8 afterwards. -/
theorem C26_witness :
    ((ex_world 100 1).cstack_root ≠ NULL ∧
      reaches_callback (ex_env ex_save_reenter (TransferOutcome.switch 50 60) EvalOutcome.fault)
        (ex_world 100 1) = true) ∧
    slp_safe_pickling (ex_env ex_save_reenter (TransferOutcome.switch 50 60) EvalOutcome.fault)
        5 6 7 0 { ex_world 100 1 with cPickle_save := 99 } =
      slp_safe_pickling (ex_env ex_save_reenter (TransferOutcome.switch 50 60) EvalOutcome.fault)
        5 6 7 0 (ex_world 100 1) ∧
    Event.save 5 6 7 0 ∈
      (slp_safe_pickling (ex_env ex_save_reenter (TransferOutcome.switch 50 60) EvalOutcome.fault)
        5 6 7 0 (ex_world 100 1)).tr ∧
    (slp_safe_pickling (ex_env ex_save_reenter (TransferOutcome.switch 50 60) EvalOutcome.fault)
        5 6 7 0 (ex_world 100 1)).st.cPickle_save = 8 :=
  have h := C26_each_call_runs_its_own_callback
    (ex_env ex_save_reenter (TransferOutcome.switch 50 60) EvalOutcome.fault) 5 6 7 0
    (ex_world 100 1) 99 (by decide) rfl (fun _ => ex_env_round _ _ _)
  ⟨⟨by decide, rfl⟩, h.1, h.2.2.2.1, by decide⟩

end SafePickle

namespace PyIKnownFolderManager

/-! ## The known-folder manager bindings: lemmas and claims -/

/-- The methods that test `FAILED(hr)`: on a failing status each returns at once
what `PyCom_BuildPyException` returns (`Redirect` returns `NULL` itself), having
called no converter. -/
theorem failing_status_is_translated (E : Com) (self args : Ptr) (hI : E.GetI self ≠ NULL) :
    (∀ csidl, E.parse_csidl args = some csidl →
      E.FAILED (E.com_FolderIdFromCsidl csidl).1 = true →
      FolderIdFromCsidl E self args =
        ⟨E.PyCom_BuildPyException (E.com_FolderIdFromCsidl csidl).1,
         [Call.PyCom_BuildPyException (E.com_FolderIdFromCsidl csidl).1]⟩) ∧
    (∀ kfid, E.parse_kfid args = some kfid →
      E.FAILED (E.com_FolderIdToCsidl kfid).1 = true →
      FolderIdToCsidl E self args =
        ⟨E.PyCom_BuildPyException (E.com_FolderIdToCsidl kfid).1,
         [Call.PyCom_BuildPyException (E.com_FolderIdToCsidl kfid).1]⟩) ∧
    (E.parse_nothing args = true → E.FAILED E.com_GetFolderIds.1 = true →
      GetFolderIds E self args =
        ⟨E.PyCom_BuildPyException E.com_GetFolderIds.1,
         [Call.PyCom_BuildPyException E.com_GetFolderIds.1]⟩) ∧
    (∀ kfid, E.parse_kfid args = some kfid → E.FAILED (E.com_GetFolder kfid).1 = true →
      GetFolder E self args =
        ⟨E.PyCom_BuildPyException (E.com_GetFolder kfid).1,
         [Call.PyCom_BuildPyException (E.com_GetFolder kfid).1]⟩) ∧
    (∀ kfid obdef, E.parse_kfid_object args = some (kfid, obdef) →
      (PyWinObject_AsKNOWNFOLDER_DEFINITION E obdef).1 = true →
      E.FAILED (E.com_RegisterFolder kfid
        (PyWinObject_AsKNOWNFOLDER_DEFINITION E obdef).2.1) = true →
      (RegisterFolder E self args).ret =
        E.PyCom_BuildPyException (E.com_RegisterFolder kfid
          (PyWinObject_AsKNOWNFOLDER_DEFINITION E obdef).2.1) ∧
      (RegisterFolder E self args).calls.countP is_conversion =
        (PyWinObject_AsKNOWNFOLDER_DEFINITION E obdef).2.2.countP is_conversion) ∧
    (∀ kfid, E.parse_kfid args = some kfid → E.FAILED (E.com_UnregisterFolder kfid) = true →
      UnregisterFolder E self args =
        ⟨E.PyCom_BuildPyException (E.com_UnregisterFolder kfid),
         [Call.PyCom_BuildPyException (E.com_UnregisterFolder kfid)]⟩) ∧
    (∀ obpath mode path, E.parse_path_mode args = some (obpath, mode) →
      E.PyWinObject_AsWCHAR obpath = some path →
      E.FAILED (E.com_FindFolderFromPath path mode).1 = true →
      FindFolderFromPath E self args =
        ⟨E.PyCom_BuildPyException (E.com_FindFolderFromPath path mode).1,
         [Call.PyCom_BuildPyException (E.com_FindFolderFromPath path mode).1]⟩) ∧
    (∀ obpidl pidl, E.parse_object args = some obpidl → E.PyObject_AsPIDL obpidl = some pidl →
      E.FAILED (E.com_FindFolderFromIDList pidl).1 = true →
      FindFolderFromIDList E self args =
        ⟨E.PyCom_BuildPyException (E.com_FindFolderFromIDList pidl).1,
         [Call.PyObject_FreePIDL pidl,
          Call.PyCom_BuildPyException (E.com_FindFolderFromIDList pidl).1]⟩) ∧
    (∀ a TargetPath Excludes cExcludes, E.parse_redirect args = some a →
      E.PyWinObject_AsWCHAR a.obTargetPath = some TargetPath →
      E.SeqToVector a.obExcludes = some (Excludes, cExcludes) →
      E.FAILED (E.com_Redirect a.kfid a.hwnd a.flags TargetPath cExcludes Excludes).1 = true →
      Redirect E self args =
        ⟨NULL, [Call.CoTaskMemFree Excludes,
          Call.PyCom_BuildPyException
            (E.com_Redirect a.kfid a.hwnd a.flags TargetPath cExcludes Excludes).1,
          Call.CoTaskMemFree
            (E.com_Redirect a.kfid a.hwnd a.flags TargetPath cExcludes Excludes).2]⟩) := by
  refine ⟨?_, ?_, ?_, ?_, ?_, ?_, ?_, ?_, ?_⟩
  · intro csidl hp hf
    simp [FolderIdFromCsidl, hI, hp, hf]
  · intro kfid hp hf
    simp [FolderIdToCsidl, hI, hp, hf]
  · intro hp hf
    simp [GetFolderIds, hI, hp, hf]
  · intro kfid hp hf
    simp [GetFolder, hI, hp, hf]
  · intro kfid obdef hp ha hf
    simp [RegisterFolder, hI, hp, ha, hf, List.countP_append, List.countP_cons, is_conversion]
  · intro kfid hp hf
    simp [UnregisterFolder, hI, hp, hf]
  · intro obpath mode path hp hw hf
    simp [FindFolderFromPath, hI, hp, hw, hf]
  · intro obpidl pidl hp hw hf
    simp [FindFolderFromIDList, hI, hp, hw, hf]
  · intro a TargetPath Excludes cExcludes hp hw hv hf
    simp [Redirect, hI, hp, hw, hv, hf]

/-- `GetFolderByName` never calls `PyCom_BuildPyException`, whatever the status of
the COM call. -/
theorem GetFolderByName_builds_no_exception (E : Com) (self args : Ptr) :
    (GetFolderByName E self args).calls.countP is_exception = 0 := by
  unfold GetFolderByName
  by_cases hI : E.GetI self = NULL
  · simp [hI]
  · cases hp : E.parse_object args with
    | none => simp [hI, hp]
    | some obname =>
      cases hw : E.PyWinObject_AsWCHAR obname with
      | none => simp [hI, hp, hw]
      | some name => simp [hI, hp, hw, is_exception]

/-- C14 (the code at the failing input): `GetFolderByName` on a COM object whose
call fails with `0x80070002` returns the conversion of the out-pointer (object 9)
and builds no exception, while `FindFolderFromPath` on the same failure returns
`NULL` through `PyCom_BuildPyException`. -/
theorem C14_GetFolderByName_failing_input :
    ex_com.FAILED (ex_com.com_GetFolderByName 3002).1 = true ∧
    GetFolderByName ex_com 1 2 = ⟨9, [Call.PyCom_PyObjectFromIUnknown NULL]⟩ ∧
    FindFolderFromPath ex_com 1 2 = ⟨NULL, [Call.PyCom_BuildPyException (-2147024894)]⟩ := by
  decide

/-- The loop of `GetFolderIds` when every conversion succeeds: `ret` is kept, and
the items stored are the conversions of `kfids[i]`, ..., in order. -/
theorem GetFolderIds_loop_ok (E : Com) (kfids ret : Ptr) :
    ∀ n i : Nat,
      (∀ j, j < n → E.PyWinObject_FromIID (E.kfids_at kfids (i + j)) ≠ NULL) →
      (GetFolderIds_loop E kfids ret n i).1 = ret ∧
      (GetFolderIds_loop E kfids ret n i).2.filter is_set_item =
        (List.range' i n).map
          (fun k => Call.PyTuple_SET_ITEM ret k (E.PyWinObject_FromIID (E.kfids_at kfids k)))
  | 0, i, _ => by simp [GetFolderIds_loop]
  | n + 1, i, h => by
    have h0 : E.PyWinObject_FromIID (E.kfids_at kfids i) ≠ NULL := by
      simpa using h 0 (Nat.succ_pos n)
    have hrest : ∀ j, j < n →
        E.PyWinObject_FromIID (E.kfids_at kfids (i + 1 + j)) ≠ NULL := by
      intro j hj
      have := h (j + 1) (Nat.succ_lt_succ hj)
      rwa [show i + (j + 1) = i + 1 + j by omega] at this
    have ih := GetFolderIds_loop_ok E kfids ret n (i + 1) hrest
    simp [GetFolderIds_loop, h0, ih.1, ih.2, is_set_item, List.range'_succ, List.filter_cons]

/-- The loop of `GetFolderIds` when some conversion fails: `ret` ends `NULL` and
the tuple has been released. -/
theorem GetFolderIds_loop_fail (E : Com) (kfids ret : Ptr) :
    ∀ n i : Nat,
      (∃ j, j < n ∧ E.PyWinObject_FromIID (E.kfids_at kfids (i + j)) = NULL) →
      (GetFolderIds_loop E kfids ret n i).1 = NULL ∧
      Call.Py_DECREF ret ∈ (GetFolderIds_loop E kfids ret n i).2
  | 0, i, h => by
    obtain ⟨j, hj, _⟩ := h
    exact absurd hj (Nat.not_lt_zero j)
  | n + 1, i, h => by
    by_cases h0 : E.PyWinObject_FromIID (E.kfids_at kfids i) = NULL
    · simp [GetFolderIds_loop, h0]
    · obtain ⟨j, hj, hnull⟩ := h
      have hj0 : j ≠ 0 := by
        intro hz
        rw [hz] at hnull
        exact h0 (by simpa using hnull)
      have ih := GetFolderIds_loop_fail E kfids ret n (i + 1)
        ⟨j - 1, by omega, by rwa [show i + 1 + (j - 1) = i + j by omega]⟩
      simp [GetFolderIds_loop, h0, ih.1, ih.2]

/-- The loop of `GetFolderIds` frees nothing. -/
theorem GetFolderIds_loop_no_free (E : Com) (kfids ret p : Ptr) :
    ∀ n i : Nat, (GetFolderIds_loop E kfids ret n i).2.count (Call.CoTaskMemFree p) = 0
  | 0, i => by simp [GetFolderIds_loop]
  | n + 1, i => by
    have ih := GetFolderIds_loop_no_free E kfids ret p n (i + 1)
    by_cases h0 : E.PyWinObject_FromIID (E.kfids_at kfids i) = NULL
    · simp [GetFolderIds_loop, h0]
    · simp [GetFolderIds_loop, h0, List.count_cons, ih]

/-- C15: when the COM call of `GetFolderIds` succeeds with `count` ids, then (a)
if the tuple is created and every conversion succeeds, the method returns the
tuple and the items stored in it are the conversions of `kfids[0]`, ...,
`kfids[count-1]` at indices `0`, ..., `count-1`, in that order; (b) if some
conversion fails the method returns `NULL`, having released the tuple; and (c) in
every case `CoTaskMemFree(kfids)` is called exactly once. -/
theorem C15_GetFolderIds_retrieves_all_ids (E : Com) (self args : Ptr)
    (hI : E.GetI self ≠ NULL) (hparse : E.parse_nothing args = true)
    (hok : E.FAILED E.com_GetFolderIds.1 = false) :
    (E.PyTuple_New E.com_GetFolderIds.2.2 ≠ NULL →
      (∀ i, i < E.com_GetFolderIds.2.2 →
        E.PyWinObject_FromIID (E.kfids_at E.com_GetFolderIds.2.1 i) ≠ NULL) →
      (GetFolderIds E self args).ret = E.PyTuple_New E.com_GetFolderIds.2.2 ∧
      (GetFolderIds E self args).calls.filter is_set_item =
        (List.range E.com_GetFolderIds.2.2).map
          (fun i => Call.PyTuple_SET_ITEM (E.PyTuple_New E.com_GetFolderIds.2.2) i
            (E.PyWinObject_FromIID (E.kfids_at E.com_GetFolderIds.2.1 i)))) ∧
    ((∃ i, i < E.com_GetFolderIds.2.2 ∧
        E.PyWinObject_FromIID (E.kfids_at E.com_GetFolderIds.2.1 i) = NULL) →
      (GetFolderIds E self args).ret = NULL ∧
      (E.PyTuple_New E.com_GetFolderIds.2.2 ≠ NULL →
        Call.Py_DECREF (E.PyTuple_New E.com_GetFolderIds.2.2) ∈
          (GetFolderIds E self args).calls)) ∧
    (GetFolderIds E self args).calls.count (Call.CoTaskMemFree E.com_GetFolderIds.2.1) = 1 := by
  refine ⟨?_, ?_, ?_⟩
  · intro ht hall
    have h := GetFolderIds_loop_ok E E.com_GetFolderIds.2.1
      (E.PyTuple_New E.com_GetFolderIds.2.2) E.com_GetFolderIds.2.2 0
      (fun j hj => by simpa using hall j hj)
    simp [GetFolderIds, hI, hparse, hok, ht, h.1, h.2, is_set_item, List.filter_cons,
      List.range_eq_range']
  · intro hex
    by_cases ht : E.PyTuple_New E.com_GetFolderIds.2.2 = NULL
    · simp [GetFolderIds, hI, hparse, hok, ht]
    · obtain ⟨i, hi, hnull⟩ := hex
      have h := GetFolderIds_loop_fail E E.com_GetFolderIds.2.1
        (E.PyTuple_New E.com_GetFolderIds.2.2) E.com_GetFolderIds.2.2 0
        ⟨i, hi, by simpa using hnull⟩
      simp [GetFolderIds, hI, hparse, hok, ht, h.1, h.2]
  · by_cases ht : E.PyTuple_New E.com_GetFolderIds.2.2 = NULL
    · simp [GetFolderIds, hI, hparse, hok, ht, List.count_cons]
    · simp [GetFolderIds, hI, hparse, hok, ht, List.count_cons, List.count_append,
        GetFolderIds_loop_no_free]

/-- C15 at a concrete input: three ids 11, 12, 13 convert to 1011, 1012, 1013 and
fill tuple 7; with id 12 not convertible the method returns `NULL`; the array at
600 is freed once either way. -/
theorem C15_witness :
    (ex_com.GetI 1 ≠ NULL ∧ ex_com.parse_nothing 2 = true ∧
      ex_com.FAILED ex_com.com_GetFolderIds.1 = false) ∧
    ((GetFolderIds ex_com 1 2).ret = 7 ∧
      (GetFolderIds ex_com 1 2).calls.filter is_set_item =
        [Call.PyTuple_SET_ITEM 7 0 1011, Call.PyTuple_SET_ITEM 7 1 1012,
         Call.PyTuple_SET_ITEM 7 2 1013]) ∧
    (GetFolderIds ex_com_bad_id 1 2).ret = NULL ∧
    (GetFolderIds ex_com 1 2).calls.count (Call.CoTaskMemFree 600) = 1 ∧
    (GetFolderIds ex_com_bad_id 1 2).calls.count (Call.CoTaskMemFree 600) = 1 :=
  ⟨⟨by decide, rfl, rfl⟩,
   (C15_GetFolderIds_retrieves_all_ids ex_com 1 2 (by decide) rfl rfl).1 (by decide)
     (by decide),
   ((C15_GetFolderIds_retrieves_all_ids ex_com_bad_id 1 2 (by decide) rfl rfl).2.1
     ⟨1, by decide, rfl⟩).1,
   (C15_GetFolderIds_retrieves_all_ids ex_com 1 2 (by decide) rfl rfl).2.2,
   (C15_GetFolderIds_retrieves_all_ids ex_com_bad_id 1 2 (by decide) rfl rfl).2.2⟩

/-- The chain of eight conversions yields `TRUE` exactly when each of them
succeeds, with `None` not allowed for the first two and allowed for the other
six. -/
theorem convert_strings_true_iff (E : Com) (k : ParsedKeywords) (d : KNOWNFOLDER_DEFINITION) :
    (convert_strings E k d).1 = true ↔
      ((E.PyWinObject_AsTaskAllocatedWCHAR k.obName false).isSome = true ∧
       (E.PyWinObject_AsTaskAllocatedWCHAR k.obDescription false).isSome = true ∧
       (E.PyWinObject_AsTaskAllocatedWCHAR k.obRelativePath true).isSome = true ∧
       (E.PyWinObject_AsTaskAllocatedWCHAR k.obParsingName true).isSome = true ∧
       (E.PyWinObject_AsTaskAllocatedWCHAR k.obTooltip true).isSome = true ∧
       (E.PyWinObject_AsTaskAllocatedWCHAR k.obLocalizedName true).isSome = true ∧
       (E.PyWinObject_AsTaskAllocatedWCHAR k.obIcon true).isSome = true ∧
       (E.PyWinObject_AsTaskAllocatedWCHAR k.obSecurity true).isSome = true) := by
  unfold convert_strings
  cases h1 : E.PyWinObject_AsTaskAllocatedWCHAR k.obName false <;> simp
  cases h2 : E.PyWinObject_AsTaskAllocatedWCHAR k.obDescription false <;> simp
  cases h3 : E.PyWinObject_AsTaskAllocatedWCHAR k.obRelativePath true <;> simp
  cases h4 : E.PyWinObject_AsTaskAllocatedWCHAR k.obParsingName true <;> simp
  cases h5 : E.PyWinObject_AsTaskAllocatedWCHAR k.obTooltip true <;> simp
  cases h6 : E.PyWinObject_AsTaskAllocatedWCHAR k.obLocalizedName true <;> simp
  cases h7 : E.PyWinObject_AsTaskAllocatedWCHAR k.obIcon true <;> simp
  cases h8 : E.PyWinObject_AsTaskAllocatedWCHAR k.obSecurity true <;> simp

/-- C24: with the empty tuple for the keyword parse allocated,
`PyWinObject_AsKNOWNFOLDER_DEFINITION` returns `TRUE` exactly when `obdef` is a
dict, the keyword parse succeeds and the eight string conversions succeed, `None`
being allowed (`bNoneOK`) for all but Name and Description; so when the converter
rejects `None` where it is not allowed, a `None` Name or Description gives
`FALSE`.  A non-dict gives `FALSE` with a `TypeError` and a zeroed `def`.  On
every `FALSE` return the string fields of `def` are all null as zeroed, or
`FreeKnownFolderDefinitionFields` has been applied to `def`. -/
theorem C24_definition_conversion (E : Com) (obdef : Ptr) (halloc : E.PyTuple_New 0 ≠ NULL) :
    ((PyWinObject_AsKNOWNFOLDER_DEFINITION E obdef).1 = true ↔
      (E.PyDict_Check obdef = true ∧ (E.parse_keywords obdef).ok = true ∧
       (E.PyWinObject_AsTaskAllocatedWCHAR (E.parse_keywords obdef).obName false).isSome
         = true ∧
       (E.PyWinObject_AsTaskAllocatedWCHAR (E.parse_keywords obdef).obDescription false).isSome
         = true ∧
       (E.PyWinObject_AsTaskAllocatedWCHAR (E.parse_keywords obdef).obRelativePath true).isSome
         = true ∧
       (E.PyWinObject_AsTaskAllocatedWCHAR (E.parse_keywords obdef).obParsingName true).isSome
         = true ∧
       (E.PyWinObject_AsTaskAllocatedWCHAR (E.parse_keywords obdef).obTooltip true).isSome
         = true ∧
       (E.PyWinObject_AsTaskAllocatedWCHAR (E.parse_keywords obdef).obLocalizedName true).isSome
         = true ∧
       (E.PyWinObject_AsTaskAllocatedWCHAR (E.parse_keywords obdef).obIcon true).isSome
         = true ∧
       (E.PyWinObject_AsTaskAllocatedWCHAR (E.parse_keywords obdef).obSecurity true).isSome
         = true)) ∧
    (E.PyWinObject_AsTaskAllocatedWCHAR E.Py_None false = none →
      ((E.parse_keywords obdef).obName = E.Py_None ∨
        (E.parse_keywords obdef).obDescription = E.Py_None) →
      (PyWinObject_AsKNOWNFOLDER_DEFINITION E obdef).1 = false) ∧
    (E.PyDict_Check obdef = false →
      PyWinObject_AsKNOWNFOLDER_DEFINITION E obdef =
        (false, zero_definition, [Call.PyErr_SetString_TypeError])) ∧
    ((PyWinObject_AsKNOWNFOLDER_DEFINITION E obdef).1 = false →
      ((PyWinObject_AsKNOWNFOLDER_DEFINITION E obdef).2.1.pszName = NULL ∧
        (PyWinObject_AsKNOWNFOLDER_DEFINITION E obdef).2.1.pszDescription = NULL ∧
        (PyWinObject_AsKNOWNFOLDER_DEFINITION E obdef).2.1.pszRelativePath = NULL ∧
        (PyWinObject_AsKNOWNFOLDER_DEFINITION E obdef).2.1.pszParsingName = NULL ∧
        (PyWinObject_AsKNOWNFOLDER_DEFINITION E obdef).2.1.pszTooltip = NULL ∧
        (PyWinObject_AsKNOWNFOLDER_DEFINITION E obdef).2.1.pszLocalizedName = NULL ∧
        (PyWinObject_AsKNOWNFOLDER_DEFINITION E obdef).2.1.pszIcon = NULL ∧
        (PyWinObject_AsKNOWNFOLDER_DEFINITION E obdef).2.1.pszSecurity = NULL) ∨
      ((∃ d : KNOWNFOLDER_DEFINITION,
          (PyWinObject_AsKNOWNFOLDER_DEFINITION E obdef).2.1 =
            E.FreeKnownFolderDefinitionFields d) ∧
        Call.FreeKnownFolderDefinitionFields ∈
          (PyWinObject_AsKNOWNFOLDER_DEFINITION E obdef).2.2)) := by
  have hiff : (PyWinObject_AsKNOWNFOLDER_DEFINITION E obdef).1 = true ↔
      (E.PyDict_Check obdef = true ∧ (E.parse_keywords obdef).ok = true ∧
        (convert_strings E (E.parse_keywords obdef)
          { zero_definition with
            category := (E.parse_keywords obdef).category,
            fidParent := (E.parse_keywords obdef).fidParent,
            dwAttributes := (E.parse_keywords obdef).dwAttributes,
            kfdFlags := (E.parse_keywords obdef).kfdFlags,
            ftidType := (E.parse_keywords obdef).ftidType }).1 = true) := by
    unfold PyWinObject_AsKNOWNFOLDER_DEFINITION
    by_cases hd : E.PyDict_Check obdef = true
    · by_cases hk : (E.parse_keywords obdef).ok = true
      · by_cases hc : (convert_strings E (E.parse_keywords obdef)
            { zero_definition with
              category := (E.parse_keywords obdef).category,
              fidParent := (E.parse_keywords obdef).fidParent,
              dwAttributes := (E.parse_keywords obdef).dwAttributes,
              kfdFlags := (E.parse_keywords obdef).kfdFlags,
              ftidType := (E.parse_keywords obdef).ftidType }).1 = true
        · simp [hd, hk, hc, halloc]
        · simp [hd, hk, hc, halloc]
      · simp [hd, hk, halloc]
    · simp [hd]
  refine ⟨?_, ?_, ?_, ?_⟩
  · rw [hiff, convert_strings_true_iff]
  · intro hnone hor
    by_contra hne
    have htrue : (PyWinObject_AsKNOWNFOLDER_DEFINITION E obdef).1 = true := by
      simpa using hne
    rw [hiff, convert_strings_true_iff] at htrue
    rcases hor with h | h
    · have := htrue.2.2.1
      rw [h, hnone] at this
      simp at this
    · have := htrue.2.2.2.1
      rw [h, hnone] at this
      simp at this
  · intro hd
    simp [PyWinObject_AsKNOWNFOLDER_DEFINITION, hd]
  · intro _
    unfold PyWinObject_AsKNOWNFOLDER_DEFINITION
    by_cases hd : E.PyDict_Check obdef = true
    · by_cases hk : (E.parse_keywords obdef).ok = true
      · by_cases hc : (convert_strings E (E.parse_keywords obdef)
            { zero_definition with
              category := (E.parse_keywords obdef).category,
              fidParent := (E.parse_keywords obdef).fidParent,
              dwAttributes := (E.parse_keywords obdef).dwAttributes,
              kfdFlags := (E.parse_keywords obdef).kfdFlags,
              ftidType := (E.parse_keywords obdef).ftidType }).1 = true
        · exfalso
          have : (PyWinObject_AsKNOWNFOLDER_DEFINITION E obdef).1 = true :=
            hiff.mpr ⟨hd, hk, hc⟩
          simp_all
        · right
          simp [hd, hk, hc, halloc]
      · left
        simp [hd, hk, halloc, zero_definition]
    · left
      simp [hd, zero_definition]

/-- C24 at a concrete input: a dict whose thirteen fields parse and whose eight
strings convert gives `TRUE`; a non-dict gives `FALSE` with a zeroed `def`. -/
theorem C24_witness :
    ex_com.PyTuple_New 0 ≠ NULL ∧
    (PyWinObject_AsKNOWNFOLDER_DEFINITION ex_com 2).1 = true ∧
    PyWinObject_AsKNOWNFOLDER_DEFINITION { ex_com with PyDict_Check := fun _ => false } 2 =
      (false, zero_definition, [Call.PyErr_SetString_TypeError]) :=
  ⟨by decide,
   (C24_definition_conversion ex_com 2 (by decide)).1.mpr
     ⟨rfl, rfl, rfl, rfl, rfl, rfl, rfl, rfl, rfl, rfl⟩,
   (C24_definition_conversion { ex_com with PyDict_Check := fun _ => false } 2
     (by decide)).2.2.1 rfl⟩

end PyIKnownFolderManager

namespace AXDebugGateway

/-! ## The script-debugger gateways: claims -/

/-- C28: each of the five gateway methods with an interface out-parameter, called
with that out-pointer null, returns `E_POINTER`, having made no call of
`InvokeViaPolicy` and no store through any pointer (its only step is the
`PY_GATEWAY_METHOD` prologue); called with it non-null, it does call
`InvokeViaPolicy`. -/
theorem C28_null_out_pointer_guard (G : Gateway) :
    (GetApplication G NULL = ⟨G.E_POINTER, [GCall.PY_GATEWAY_METHOD]⟩ ∧
      EnumStackFrames G NULL = ⟨G.E_POINTER, [GCall.PY_GATEWAY_METHOD]⟩ ∧
      GetDebugApplicationNode G NULL = ⟨G.E_POINTER, [GCall.PY_GATEWAY_METHOD]⟩ ∧
      (∀ (dwSourceContext : Int) (piCharPos pcChars : Ptr),
        GetScriptBlockInfo G dwSourceContext NULL piCharPos pcChars =
          ⟨G.E_POINTER, [GCall.PY_GATEWAY_METHOD]⟩) ∧
      (∀ iCharPos cChars : Int,
        CreateDebugDocumentContext G iCharPos cChars NULL =
          ⟨G.E_POINTER, [GCall.PY_GATEWAY_METHOD]⟩)) ∧
    ([GCall.PY_GATEWAY_METHOD].countP is_invoke = 0 ∧
      [GCall.PY_GATEWAY_METHOD].countP is_store = 0) ∧
    (∀ p : Ptr, p ≠ NULL →
      GCall.InvokeViaPolicy Method.GetApplication [] ∈ (GetApplication G p).calls ∧
      GCall.InvokeViaPolicy Method.EnumStackFrames [] ∈ (EnumStackFrames G p).calls ∧
      GCall.InvokeViaPolicy Method.GetDebugApplicationNode [] ∈
        (GetDebugApplicationNode G p).calls ∧
      (∀ (dwSourceContext : Int) (piCharPos pcChars : Ptr),
        GCall.InvokeViaPolicy Method.GetScriptBlockInfo [dwSourceContext] ∈
          (GetScriptBlockInfo G dwSourceContext p piCharPos pcChars).calls) ∧
      (∀ iCharPos cChars : Int,
        GCall.InvokeViaPolicy Method.CreateDebugDocumentContext [iCharPos, cChars] ∈
          (CreateDebugDocumentContext G iCharPos cChars p).calls)) := by
  refine ⟨⟨?_, ?_, ?_, ?_, ?_⟩, ⟨by decide, by decide⟩, ?_⟩
  · simp [GetApplication]
  · simp [EnumStackFrames]
  · simp [GetDebugApplicationNode]
  · intro d a b
    simp [GetScriptBlockInfo]
  · intro a b
    simp [CreateDebugDocumentContext]
  · intro p hp
    refine ⟨?_, ?_, ?_, ?_, ?_⟩
    · unfold GetApplication
      simp only [hp, if_false]
      split
      · simp
      · split
        · simp
        · split <;> simp
    · unfold EnumStackFrames
      simp only [hp, if_false]
      split
      · simp
      · split
        · simp
        · split <;> simp
    · unfold GetDebugApplicationNode
      simp only [hp, if_false]
      split
      · simp
      · split
        · simp
        · split <;> simp
    · intro d a b
      unfold GetScriptBlockInfo
      simp only [hp, if_false]
      split
      · simp
      · split
        · simp
        · split <;> simp
    · intro a b
      unfold CreateDebugDocumentContext
      simp only [hp, if_false]
      split
      · simp
      · split
        · simp
        · split <;> simp

end AXDebugGateway
